import Mathlib

/-!
Verification development for the Clavis clinical-workflow backend.

The definitions below are a shallow embedding of the Python source under
`backend/`: the workflow registry and transition validator
(`state_machine.py`), the SLA helpers (`services/sla.py`), the role table
(`services/access.py`), the department router (`services/workflow.py`),
the safety engine (`services/safety_engine.py`), the action router
(`routers/actions.py`), the custom-type router (`routers/custom_types.py`),
the websocket connection manager (`ws.py`) and one iteration of the
background SLA checker (`main.py`).

Conventions: machine timestamps are modelled as natural numbers (minutes);
Python `str.strip`/`upper`/`casefold`/`replace` are modelled by explicit
character-list maps (`pyStrip`, `pyUpper`, `pyLower`, `replaceSpaces`);
database persistence is assumed to succeed, so the
`try/except ... rollback` wrappers around commits are not modelled;
websocket/broadcast payload delivery is modelled where a claim concerns it
and elided otherwise.
-/

set_option linter.unusedVariables false

namespace Clavis

/-! ### Python string primitives

`str.strip`, `str.upper`, `str.casefold` and `replace(" ", "_")` are
modelled directly on the character list of the string (the system only
ever manipulates ASCII department/state/name tokens, for which `casefold`
agrees with lowercasing and `upper`/`lower` are the ASCII maps). -/

/-- ASCII uppercasing of one character. -/
def pyCharUpper (c : Char) : Char :=
  if 97 ≤ c.toNat ∧ c.toNat ≤ 122 then Char.ofNat (c.toNat - 32) else c

/-- ASCII lowercasing of one character. -/
def pyCharLower (c : Char) : Char :=
  if 65 ≤ c.toNat ∧ c.toNat ≤ 90 then Char.ofNat (c.toNat + 32) else c

/-- Python `str.upper`. -/
def pyUpper (s : String) : String :=
  ⟨s.data.map pyCharUpper⟩

/-- Python `str.casefold` (ASCII lowercasing). -/
def pyLower (s : String) : String :=
  ⟨s.data.map pyCharLower⟩

/-- Python `str.strip`: drop leading and trailing whitespace. -/
def pyStrip (s : String) : String :=
  ⟨((s.data.dropWhile Char.isWhitespace).reverse.dropWhile Char.isWhitespace).reverse⟩

/-- Python `str.replace(" ", "_")` (single-character pattern, hence a
character-wise map). -/
def replaceSpaces (s : String) : String :=
  ⟨s.data.map (fun c => if c == ' ' then '_' else c)⟩

/-- Built-in action kinds, from `ActionType` in `models.py`. -/
inductive ActionType
  | DIAGNOSTIC
  | MEDICATION
  | REFERRAL
  | CARE_INSTRUCTION
  | VITALS_REQUEST
  deriving DecidableEq, Repr

/-- Priorities, from `Priority` in `models.py`. -/
inductive Priority
  | ROUTINE
  | URGENT
  | CRITICAL
  deriving DecidableEq, Repr

/-- User roles, from `UserRole` in `models.py`. -/
inductive UserRole
  | DOCTOR
  | NURSE
  | PHARMACIST
  | LAB_TECH
  | RADIOLOGIST
  | ADMIN
  deriving DecidableEq, Repr

/-- Patient admission status, from `AdmissionStatus` in `models.py`. -/
inductive AdmissionStatus
  | ADMITTED
  | DISCHARGED
  | TRANSFERRED
  deriving DecidableEq, Repr

/-- Safety-event severities, from `SafetySeverity` in `services/safety_engine.py`. -/
inductive SafetySeverity
  | INFO
  | WARNING
  | CRITICAL
  deriving DecidableEq, Repr

/-- The fixed per-kind transition tables, from `VALID_TRANSITIONS` in
`state_machine.py`. The Python value is a `dict` keyed by `ActionType`;
a kind absent from the dict (`.get` returning `None`) is modelled as
`none`. Each present table is an insertion-ordered association list from
a state to the list of allowed successor states. -/
def VALID_TRANSITIONS : ActionType → Option (List (String × List String))
  | .DIAGNOSTIC => some
      [("REQUESTED", ["SAMPLE_COLLECTED"]),
       ("SAMPLE_COLLECTED", ["PROCESSING"]),
       ("PROCESSING", ["COMPLETED"])]
  | .MEDICATION => some
      [("PRESCRIBED", ["DISPENSED"]),
       ("DISPENSED", ["ADMINISTERED"])]
  | .REFERRAL => some
      [("INITIATED", ["ACKNOWLEDGED"]),
       ("ACKNOWLEDGED", ["REVIEWED"]),
       ("REVIEWED", ["CLOSED"])]
  | .CARE_INSTRUCTION => some
      [("ISSUED", ["ACKNOWLEDGED"]),
       ("ACKNOWLEDGED", ["IN_PROGRESS"]),
       ("IN_PROGRESS", ["COMPLETED"])]
  | .VITALS_REQUEST => none

/-- The initial-state table, from `INITIAL_STATES` in `state_machine.py`.
The Python dict has no entry for `VITALS_REQUEST`, so the lookup is
partial: modelled by `Option`. -/
def INITIAL_STATES : ActionType → Option String
  | .DIAGNOSTIC => some "REQUESTED"
  | .MEDICATION => some "PRESCRIBED"
  | .REFERRAL => some "INITIATED"
  | .CARE_INSTRUCTION => some "ISSUED"
  | .VITALS_REQUEST => none

/-- The per-kind terminal-state map, from `TERMINAL_STATES` in
`services/sla.py` (again a dict with no `VITALS_REQUEST` entry). -/
def TERMINAL_STATES : ActionType → Option String
  | .DIAGNOSTIC => some "COMPLETED"
  | .MEDICATION => some "ADMINISTERED"
  | .REFERRAL => some "CLOSED"
  | .CARE_INSTRUCTION => some "COMPLETED"
  | .VITALS_REQUEST => none

/-- Result of `validate_transition` / `validate_custom_transition`: the
Python functions either return `True` or raise `ValueError` with a
message; the message text is carried so the safety engine can store it. -/
def validationErrMsgUnknown (t : String) : String :=
  "Unknown action type: " ++ t

/-- Message for the `allowed is None` branch of `validate_transition`. -/
def validationErrMsgNoSource (current kind : String) : String :=
  "No transitions from state '" ++ current ++ "' for action type '" ++ kind ++ "'"

/-- Message for the `new_state not in allowed` branch of `validate_transition`. -/
def validationErrMsgBadTarget (kind current new : String) (allowed : List String) : String :=
  "Invalid transition: " ++ kind ++ " cannot go from '" ++ current ++ "' to '" ++
    new ++ "'. Allowed: " ++ String.intercalate ", " allowed

/-- Printable tag of an action type (Python enum `.value`, also what an
f-string interpolation renders). -/
def ActionType.value : ActionType → String
  | .DIAGNOSTIC => "DIAGNOSTIC"
  | .MEDICATION => "MEDICATION"
  | .REFERRAL => "REFERRAL"
  | .CARE_INSTRUCTION => "CARE_INSTRUCTION"
  | .VITALS_REQUEST => "VITALS_REQUEST"

/-- `validate_transition` from `state_machine.py`. The action router can
call it with `action.action_type is None` (an action with neither a kind
nor a custom type id), which hits the `Unknown action type` branch, so the
kind parameter is an `Option`. Raising `ValueError` is modelled with
`Except String`. -/
def validate_transition (action_type : Option ActionType)
    (current_state new_state : String) : Except String Unit :=
  match action_type with
  | none => .error (validationErrMsgUnknown "None")
  | some t =>
    match VALID_TRANSITIONS t with
    | none => .error (validationErrMsgUnknown t.value)
    | some transitions =>
      match transitions.lookup current_state with
      | none => .error (validationErrMsgNoSource current_state t.value)
      | some allowed =>
        if new_state ∈ allowed then .ok ()
        else .error (validationErrMsgBadTarget t.value current_state new_state allowed)

/-- A stored custom workflow definition, from `CustomActionType` in
`models.py` (the `states_json` column plus its `states` accessor is
modelled directly as the decoded list). -/
structure CustomActionType where
  id : Nat
  name : String
  department : String
  states : List String
  terminal_state : String
  sla_routine_minutes : Nat
  sla_urgent_minutes : Nat
  sla_critical_minutes : Nat
  deriving DecidableEq, Repr

/-- Python `dict` assignment `m[k] = v` on an insertion-ordered
association list: overwrite the existing entry in place, else append. -/
def dictInsert (m : List (String × List String)) (k : String) (v : List String) :
    List (String × List String) :=
  if m.any (fun p => p.1 == k) then
    m.map (fun p => if p.1 == k then (k, v) else p)
  else
    m ++ [(k, v)]

/-- `build_custom_transitions` from `state_machine.py`: for each index
`i < len(states) - 1`, set `transitions[states[i]] = [states[i+1]]`.
Iterating `i` over `range(len(states) - 1)` and reading `states[i]`,
`states[i+1]` is exactly iterating over `states.zip states.tail`. -/
def build_custom_transitions (cat : CustomActionType) : List (String × List String) :=
  (cat.states.zip cat.states.tail).foldl (fun m p => dictInsert m p.1 [p.2]) []

/-- Message for the `allowed is None` branch of `validate_custom_transition`. -/
def customErrMsgNoSource (current name : String) : String :=
  "No transitions from state '" ++ current ++ "' for custom type '" ++ name ++ "'"

/-- Message for the `new_state not in allowed` branch of `validate_custom_transition`. -/
def customErrMsgBadTarget (name current new : String) (allowed : List String) : String :=
  "Invalid transition: '" ++ name ++ "' cannot go from '" ++ current ++ "' to '" ++
    new ++ "'. Allowed: " ++ String.intercalate ", " allowed

/-- `validate_custom_transition` from `state_machine.py`. -/
def validate_custom_transition (cat : CustomActionType)
    (current_state new_state : String) : Except String Unit :=
  match (build_custom_transitions cat).lookup current_state with
  | none => .error (customErrMsgNoSource current_state cat.name)
  | some allowed =>
    if new_state ∈ allowed then .ok ()
    else .error (customErrMsgBadTarget cat.name current_state new_state allowed)

/-- `is_terminal_state` from `services/sla.py`: a custom terminal wins if
given; otherwise look the kind up in the per-kind terminal map (absent
kind or absent entry means "not terminal"). -/
def is_terminal_state (action_type : Option ActionType) (state : String)
    (custom_terminal : Option String) : Bool :=
  match custom_terminal with
  | some t => state == t
  | none =>
    match action_type with
    | none => false
    | some k => TERMINAL_STATES k == some state

/-- A patient row (`Patient` in `models.py`), restricted to the columns the
workflow engine consults: identity and admission status. -/
structure Patient where
  id : Nat
  admission_status : AdmissionStatus
  deriving DecidableEq, Repr

/-- A user row (`User` in `models.py`), restricted to the columns the
workflow engine consults. -/
structure User where
  id : Nat
  role : UserRole
  department : String
  deriving DecidableEq, Repr

/-- A clinical action row, from `ClinicalAction` in `models.py`.
Timestamps are naturals (minutes since an arbitrary epoch). -/
structure ClinicalAction where
  id : Nat
  patient_id : Nat
  created_by : Option Nat
  assigned_to : Option Nat
  action_type : Option ActionType
  custom_action_type_id : Option Nat
  title : String
  notes : String
  current_state : String
  priority : Priority
  department : String
  sla_deadline : Option Nat
  created_at : Nat
  updated_at : Nat
  deriving DecidableEq, Repr

/-- An append-only audit row, from `ActionEvent` in `models.py`. -/
structure ActionEvent where
  action_id : Nat
  actor_id : Option Nat
  actor_role : Option UserRole
  previous_state : String
  new_state : String
  notes : String
  timestamp : Nat
  deriving DecidableEq, Repr

/-- A safety audit row, from `SafetyEvent` in `services/safety_engine.py`. -/
structure SafetyEvent where
  patient_id : Option Nat
  action_id : Option Nat
  event_type : String
  severity : SafetySeverity
  description : String
  blocked : Bool
  created_at : Nat
  deriving DecidableEq, Repr

/-- `SLA_DELTAS` from `services/sla.py`, in minutes
(routine = 2 h, urgent = 30 min, critical = 10 min). -/
def SLA_DELTAS : Priority → Nat
  | .ROUTINE => 120
  | .URGENT => 30
  | .CRITICAL => 10

/-- `compute_sla_deadline` from `services/sla.py` (`utcnow() + delta`). -/
def compute_sla_deadline (priority : Priority) (now : Nat) : Nat :=
  now + SLA_DELTAS priority

/-- `compute_custom_sla_deadline` from `services/sla.py`. -/
def compute_custom_sla_deadline (priority : Priority) (cat : CustomActionType) (now : Nat) : Nat :=
  now + (match priority with
         | .ROUTINE => cat.sla_routine_minutes
         | .URGENT => cat.sla_urgent_minutes
         | .CRITICAL => cat.sla_critical_minutes)

/-- `is_action_overdue` from `services/sla.py`: false for terminal actions
and actions without a deadline, otherwise `now > deadline`. -/
def is_action_overdue (a : ClinicalAction) (custom_terminal : Option String) (now : Nat) : Bool :=
  if is_terminal_state a.action_type a.current_state custom_terminal then false
  else
    match a.sla_deadline with
    | none => false
    | some d => decide (d < now)

/-- Substring test on character lists (Python's `needle in hay`). -/
def containsSub (hay needle : List Char) : Bool :=
  match hay with
  | [] => needle.isEmpty
  | _ :: t => needle.isPrefixOf hay || containsSub t needle

/-- Python `needle in hay` on strings. -/
def strContainsSub (hay needle : String) : Bool :=
  containsSub hay.data needle.data

/-- `RADIOLOGY_KEYWORDS` from `services/workflow.py`. -/
def RADIOLOGY_KEYWORDS : List String :=
  ["xray", "x-ray", "ct", "mri", "ultrasound", "scan", "radiology"]

/-- `_norm` from `services/workflow.py` (`strip().casefold()`). -/
def pyNorm (value : String) : String :=
  pyLower (pyStrip value)

/-- `default_department_for_action` from `services/workflow.py`: an explicit
non-blank override wins; diagnostics route to Radiology when the title
mentions an imaging keyword, else Laboratory; medication to Pharmacy;
referral to Referral; care-instruction and vitals-request to Nursing;
anything else to General. -/
def default_department_for_action (action_type : Option ActionType) (title : String)
    (department_target : Option String) : String :=
  let byKind : String :=
    match action_type with
    | some .DIAGNOSTIC =>
      if RADIOLOGY_KEYWORDS.any (fun word => strContainsSub (pyNorm title) word) then "Radiology"
      else "Laboratory"
    | some .MEDICATION => "Pharmacy"
    | some .REFERRAL => "Referral"
    | some .CARE_INSTRUCTION => "Nursing"
    | some .VITALS_REQUEST => "Nursing"
    | none => "General"
  match department_target with
  | some dt => if pyStrip dt ≠ "" then pyStrip dt else byKind
  | none => byKind

/-- `queue_departments_for_action` from `services/workflow.py`. -/
def queue_departments_for_action (a : ClinicalAction) (custom_terminal : Option String) :
    List String :=
  if is_terminal_state a.action_type a.current_state custom_terminal then []
  else if a.custom_action_type_id.isSome then [a.department]
  else
    match a.action_type with
    | some .MEDICATION =>
      if a.current_state == "PRESCRIBED" then ["Pharmacy"]
      else if a.current_state == "DISPENSED" then ["Nursing"]
      else []
    | some .CARE_INSTRUCTION => ["Nursing"]
    | some .VITALS_REQUEST => ["Nursing"]
    | some .REFERRAL => [if a.department == "" then "Referral" else a.department]
    | some .DIAGNOSTIC => [if a.department == "" then "Laboratory" else a.department]
    | none => [a.department]

/-- `department_matches` from `services/workflow.py`. -/
def department_matches (department : String) (candidates : List String) : Bool :=
  candidates.any (fun c => pyNorm c == pyNorm department)

/-- `primary_queue_department` from `services/workflow.py`: head of the
queue list, else the action's static department column. -/
def primary_queue_department (a : ClinicalAction) (custom_terminal : Option String) : String :=
  match queue_departments_for_action a custom_terminal with
  | [] => a.department
  | d :: _ => d

/-- `DEPARTMENT_ROLE_MAP` from `services/access.py`. -/
def DEPARTMENT_ROLE_MAP : List (String × Finset UserRole) :=
  [("pharmacy", {UserRole.PHARMACIST}),
   ("nursing", {UserRole.NURSE}),
   ("laboratory", {UserRole.LAB_TECH}),
   ("radiology", {UserRole.RADIOLOGIST}),
   ("referral", {UserRole.DOCTOR}),
   ("general", {UserRole.DOCTOR})]

/-- `_department_key` from `services/access.py` (`strip().casefold()`). -/
def department_key (name : String) : String :=
  pyLower (pyStrip name)

/-- `allowed_roles_for_department` from `services/access.py` (default
mapping for an unknown department is `{DOCTOR}`). -/
def allowed_roles_for_department (department : String) : Finset UserRole :=
  (DEPARTMENT_ROLE_MAP.lookup (department_key department)).getD {UserRole.DOCTOR}

/-- `can_access_department_queue` from `services/access.py`. -/
def can_access_department_queue (role : UserRole) (department : String) : Bool :=
  role == UserRole.ADMIN || role ∈ allowed_roles_for_department department

/-- `_cancel_roles` from `services/access.py`. -/
def cancelRoles : Finset UserRole :=
  {UserRole.DOCTOR, UserRole.ADMIN}

/-- `roles_allowed_for_transition` from `services/access.py`. The Python
body is a sequence of `if` blocks with a trailing `return {ADMIN}`; the
`MEDICATION` block has no final `return`, so a medication target other
than DISPENSED / ADMINISTERED / CANCELLED falls through every later kind
test to the trailing `{ADMIN}` — reproduced here by the `else` arm of the
medication match. -/
def roles_allowed_for_transition (action : ClinicalAction) (new_state : String) :
    Finset UserRole :=
  if action.custom_action_type_id.isSome then
    insert UserRole.ADMIN (allowed_roles_for_department action.department)
  else
    match action.action_type with
    | some .DIAGNOSTIC =>
      if new_state == "CANCELLED" then cancelRoles
      else if pyNorm action.department == "radiology" then
        insert UserRole.ADMIN {UserRole.RADIOLOGIST}
      else
        insert UserRole.ADMIN {UserRole.LAB_TECH}
    | some .MEDICATION =>
      if new_state == "DISPENSED" then {UserRole.PHARMACIST, UserRole.ADMIN}
      else if new_state == "ADMINISTERED" then {UserRole.NURSE, UserRole.ADMIN}
      else if new_state == "CANCELLED" then cancelRoles
      else {UserRole.ADMIN}
    | some .REFERRAL => {UserRole.DOCTOR, UserRole.ADMIN}
    | some .CARE_INSTRUCTION =>
      if new_state == "CANCELLED" then cancelRoles ∪ {UserRole.NURSE}
      else {UserRole.NURSE, UserRole.ADMIN}
    | some .VITALS_REQUEST =>
      if new_state == "CANCELLED" then cancelRoles ∪ {UserRole.NURSE}
      else {UserRole.NURSE, UserRole.ADMIN}
    | none => {UserRole.ADMIN}

/-- Printable tag of a role (Python enum `.value`). -/
def UserRole.value : UserRole → String
  | .DOCTOR => "doctor"
  | .NURSE => "nurse"
  | .PHARMACIST => "pharmacist"
  | .LAB_TECH => "lab_tech"
  | .RADIOLOGIST => "radiologist"
  | .ADMIN => "admin"

/-- The persistent store the modelled endpoints read and write: patient
rows, stored custom workflow definitions, actions, the append-only
`ActionEvent` log (kept in chronological order) and the append-only
`SafetyEvent` log. -/
structure SystemState where
  patients : List Patient
  customTypes : List CustomActionType
  actions : List ClinicalAction
  events : List ActionEvent
  safetyEvents : List SafetyEvent
  deriving DecidableEq, Repr

/-- `create_safety_event` from `services/safety_engine.py`: normalize the
tag and description, append the row. The websocket notification the
Python function sends afterwards does not touch the store and is elided;
the commit is assumed to succeed. -/
def create_safety_event (st : SystemState) (patient_id action_id : Option Nat)
    (event_type : String) (severity : SafetySeverity) (description : String)
    (blocked : Bool) (now : Nat) : SystemState × SafetyEvent :=
  let ev : SafetyEvent :=
    { patient_id := patient_id, action_id := action_id,
      event_type := pyUpper (pyStrip event_type), severity := severity,
      description := pyStrip description, blocked := blocked, created_at := now }
  ({ st with safetyEvents := st.safetyEvents ++ [ev] }, ev)

/-- The message `medication_dependency_violation` builds for a blocked
administration (`services/safety_engine.py`). -/
def depViolationMsg (pending : Nat) : String :=
  "Cannot administer medication before linked diagnostic actions are COMPLETED (" ++
    toString pending ++ " pending)."

/-- `medication_dependency_violation` from `services/safety_engine.py`:
only a medication action moving to ADMINISTERED is guarded; it is blocked
iff some diagnostic action of the same patient has a current state other
than COMPLETED, and the message carries the pending count. -/
def medication_dependency_violation (action : ClinicalAction) (new_state : String)
    (st : SystemState) : Option String :=
  if new_state ≠ "ADMINISTERED" then none
  else if action.action_type ≠ some ActionType.MEDICATION then none
  else
    let diagnostics := st.actions.filter (fun a =>
      a.patient_id == action.patient_id && a.action_type == some ActionType.DIAGNOSTIC)
    if diagnostics.isEmpty then none
    else
      let incomplete := diagnostics.filter (fun d => pyUpper d.current_state != "COMPLETED")
      if incomplete.isEmpty then none
      else some (depViolationMsg incomplete.length)

/-- The failure taxonomy of `_transition_single_action` in
`routers/actions.py`, in raise order: 404 missing action, 404 missing
patient, 422 discharged patient, 422 blank state, 404 missing custom
type, 422 `InvalidTransition`, 403 `Forbidden`, 400 `DependencyViolation`. -/
inductive TransitionError
  | actionNotFound
  | patientNotFound
  | dischargedPatient
  | emptyNewState
  | customTypeNotFound
  | invalidTransition (message : String)
  | forbidden (role : UserRole) (new_state : String)
  | dependencyViolation (message : String)
  deriving DecidableEq, Repr

/-- Description text of a ROLE_VIOLATION safety event
(`routers/actions.py`). -/
def roleViolationMsg (role : UserRole) (new_state : String) (action_id : Nat) : String :=
  "Role '" ++ role.value ++ "' attempted blocked transition to '" ++ new_state ++
    "' for action #" ++ toString action_id

/-- Append the blocking safety event a rejected transition records. -/
def recordBlockedEvent (st : SystemState) (action : ClinicalAction) (event_type : String)
    (severity : SafetySeverity) (description : String) (now : Nat) : SystemState :=
  (create_safety_event st (some action.patient_id) (some action.id) event_type severity
    description true now).1

/-- Steps 6-8 of `_transition_single_action` (`routers/actions.py`), after
the state-graph validator has accepted: role authorization, the
medication-dependency check, then the atomic write of the new state plus
its `ActionEvent`. -/
def transition_validated (st : SystemState) (action : ClinicalAction)
    (new_state notes : String) (current_user : User) (now : Nat) :
    SystemState × Except TransitionError ClinicalAction :=
  let allowed_roles := roles_allowed_for_transition action new_state
  if current_user.role ∉ allowed_roles then
    (recordBlockedEvent st action "ROLE_VIOLATION" SafetySeverity.WARNING
       (roleViolationMsg current_user.role new_state action.id) now,
     .error (.forbidden current_user.role new_state))
  else
    match medication_dependency_violation action new_state st with
    | some msg =>
      (recordBlockedEvent st action "MEDICATION_DEPENDENCY" SafetySeverity.CRITICAL msg now,
       .error (.dependencyViolation msg))
    | none =>
      let updated := { action with current_state := new_state, updated_at := now }
      let ev : ActionEvent :=
        { action_id := action.id, actor_id := some current_user.id,
          actor_role := some current_user.role, previous_state := action.current_state,
          new_state := new_state, notes := notes, timestamp := now }
      ({ st with
          actions := st.actions.map (fun a => if a.id == action.id then updated else a),
          events := st.events ++ [ev] },
       .ok updated)

/-- `_transition_single_action` from `routers/actions.py`. The department
queues computed before and after the write feed only the broadcast, which
is elided; commits are assumed to succeed. -/
def transition_single_action (st : SystemState) (action_id : Nat)
    (req_new_state req_notes : String) (current_user : User) (now : Nat) :
    SystemState × Except TransitionError ClinicalAction :=
  match st.actions.find? (fun a => a.id == action_id) with
  | none => (st, .error .actionNotFound)
  | some action =>
    match st.patients.find? (fun p => p.id == action.patient_id) with
    | none => (st, .error .patientNotFound)
    | some patient =>
      if patient.admission_status == AdmissionStatus.DISCHARGED then
        (st, .error .dischargedPatient)
      else
        let new_state := pyUpper (pyStrip req_new_state)
        if new_state == "" then (st, .error .emptyNewState)
        else
          let notes := pyStrip req_notes
          match action.custom_action_type_id with
          | some cid =>
            match st.customTypes.find? (fun c => c.id == cid) with
            | none => (st, .error .customTypeNotFound)
            | some cat =>
              match validate_custom_transition cat action.current_state new_state with
              | .error msg =>
                (recordBlockedEvent st action "UNSAFE_TRANSITION" SafetySeverity.WARNING msg now,
                 .error (.invalidTransition msg))
              | .ok _ => transition_validated st action new_state notes current_user now
          | none =>
            match validate_transition action.action_type action.current_state new_state with
            | .error msg =>
              (recordBlockedEvent st action "UNSAFE_TRANSITION" SafetySeverity.WARNING msg now,
               .error (.invalidTransition msg))
            | .ok _ => transition_validated st action new_state notes current_user now

/-- The request body of `POST /actions` (`ActionCreate` in
`routers/actions.py`). -/
structure ActionCreate where
  patient_id : Nat
  action_type : Option ActionType
  custom_action_type_id : Option Nat
  priority : Priority
  title : String
  notes : String
  department_target : Option String
  deriving DecidableEq, Repr

/-- Failure taxonomy of `_create_single_action` (`routers/actions.py`), in
raise order. `missingInitialState` models the unhandled `KeyError` from
`INITIAL_STATES[body.action_type]` (surfaced as HTTP 500 by the global
exception handler in `main.py`). -/
inductive CreateError
  | conflictBothKinds
  | conflictNeitherKind
  | patientNotFound
  | dischargedPatient
  | emptyTitle
  | customTypeNotFound
  | customTypeNoStates
  | missingInitialState
  deriving DecidableEq, Repr

/-- The autoincrement primary key the database assigns to a new action. -/
def freshActionId (st : SystemState) : Nat :=
  (st.actions.map (fun a => a.id)).foldr max 0 + 1

/-- The tail of `_create_single_action`: build the row and its synthetic
creation `ActionEvent` (previous state empty) and commit both. -/
def finishCreate (st : SystemState) (body : ActionCreate) (current_user : User) (now : Nat)
    (title notes initial_state department : String) (sla_deadline : Nat) :
    SystemState × Except CreateError ClinicalAction :=
  let aid := freshActionId st
  let action : ClinicalAction :=
    { id := aid, patient_id := body.patient_id, created_by := some current_user.id,
      assigned_to := none, action_type := body.action_type,
      custom_action_type_id := body.custom_action_type_id,
      title := title, notes := notes, current_state := initial_state,
      priority := body.priority, department := department,
      sla_deadline := some sla_deadline, created_at := now, updated_at := now }
  let ev : ActionEvent :=
    { action_id := aid, actor_id := some current_user.id,
      actor_role := some current_user.role, previous_state := "",
      new_state := initial_state, notes := "", timestamp := now }
  ({ st with actions := st.actions ++ [action], events := st.events ++ [ev] }, .ok action)

/-- `_create_single_action` from `routers/actions.py`. The
drug-interaction warning lookup after the commit only decorates the
response and is elided. -/
def create_single_action (st : SystemState) (body : ActionCreate) (current_user : User)
    (now : Nat) : SystemState × Except CreateError ClinicalAction :=
  if body.action_type.isSome && body.custom_action_type_id.isSome then
    (st, .error .conflictBothKinds)
  else if !body.action_type.isSome && !body.custom_action_type_id.isSome then
    (st, .error .conflictNeitherKind)
  else
    match st.patients.find? (fun p => p.id == body.patient_id) with
    | none => (st, .error .patientNotFound)
    | some patient =>
      if patient.admission_status == AdmissionStatus.DISCHARGED then
        (st, .error .dischargedPatient)
      else
        let title := pyStrip body.title
        let notes := pyStrip body.notes
        let department_target : Option String :=
          match body.department_target with
          | some s => if s == "" then none else some (pyStrip s)
          | none => none
        if title == "" then (st, .error .emptyTitle)
        else
          match body.custom_action_type_id with
          | some cid =>
            match st.customTypes.find? (fun c => c.id == cid) with
            | none => (st, .error .customTypeNotFound)
            | some cat =>
              match cat.states with
              | [] => (st, .error .customTypeNoStates)
              | s0 :: _ =>
                finishCreate st body current_user now title notes s0 cat.department
                  (compute_custom_sla_deadline body.priority cat now)
          | none =>
            match body.action_type with
            | none => (st, .error .conflictNeitherKind)
            | some k =>
              match INITIAL_STATES k with
              | none => (st, .error .missingInitialState)
              | some init =>
                finishCreate st body current_user now title notes init
                  (default_department_for_action (some k) title department_target)
                  (compute_sla_deadline body.priority now)

/-- The request body of `PATCH /actions/id` (`ActionEdit` in
`routers/actions.py`). -/
structure ActionEdit where
  title : Option String
  notes : Option String
  priority : Option Priority
  deriving DecidableEq, Repr

/-- Failure taxonomy of `edit_action`. -/
inductive EditError
  | actionNotFound
  | emptyTitle
  deriving DecidableEq, Repr

/-- `edit_action` from `routers/actions.py`: optional title/notes edits,
`updated_at` bump, and on a priority change a recomputed SLA deadline
(custom types use their stored offsets). Neither `current_state` nor the
event log is touched. -/
def edit_action (st : SystemState) (action_id : Nat) (body : ActionEdit) (now : Nat) :
    SystemState × Except EditError ClinicalAction :=
  match st.actions.find? (fun a => a.id == action_id) with
  | none => (st, .error .actionNotFound)
  | some action =>
    let step1 : Except EditError ClinicalAction :=
      match body.title with
      | some t =>
        if pyStrip t == "" then .error .emptyTitle else .ok { action with title := pyStrip t }
      | none => .ok action
    match step1 with
    | .error e => (st, .error e)
    | .ok a1 =>
      let a2 : ClinicalAction :=
        match body.notes with
        | some n => { a1 with notes := pyStrip n }
        | none => a1
      let a3 : ClinicalAction := { a2 with updated_at := now }
      let a4 : ClinicalAction :=
        match body.priority with
        | some p =>
          let base := { a3 with priority := p }
          match a3.custom_action_type_id with
          | some cid =>
            match st.customTypes.find? (fun c => c.id == cid) with
            | some cat =>
              { base with sla_deadline := some (compute_custom_sla_deadline p cat now) }
            | none => base
          | none => { base with sla_deadline := some (compute_sla_deadline p now) }
        | none => a3
      ({ st with actions := st.actions.map (fun a => if a.id == action_id then a4 else a) },
       .ok a4)

/-- The request body of `POST /custom-action-types`
(`CustomActionTypeCreate` in `routers/custom_types.py`). -/
structure CustomTypeCreate where
  name : String
  department : String
  states : List String
  terminal_state : String
  sla_routine_minutes : Nat
  sla_urgent_minutes : Nat
  sla_critical_minutes : Nat
  deriving DecidableEq, Repr

/-- Failure taxonomy of `create_custom_type` (`routers/custom_types.py`),
in raise order; all are HTTP 422 except `duplicateName` (409). -/
inductive CustomTypeError
  | tooFewStates
  | duplicateStates
  | badStateChars
  | terminalNotLast
  | emptyDepartment
  | duplicateName
  deriving DecidableEq, Repr

/-- Token normalization of `create_custom_type`:
`strip().upper().replace(" ", "_")`. -/
def normalizeToken (s : String) : String :=
  replaceSpaces (pyUpper (pyStrip s))

/-- A character of the restricted state alphabet `[A-Z0-9_]`. -/
def isStateChar (c : Char) : Bool :=
  (65 ≤ c.toNat && c.toNat ≤ 90) || (48 ≤ c.toNat && c.toNat ≤ 57) || c == '_'

/-- Python `re.fullmatch(r"[A-Z0-9_]+", s)`: nonempty and all characters
in the restricted alphabet. -/
def matchesStateCharset (s : String) : Bool :=
  s != "" && s.data.all isStateChar

/-- The state-list normalization of `create_custom_type`: drop entries
that strip to nothing, normalize the rest. -/
def normalizeStates (states : List String) : List String :=
  (states.filter (fun s => pyStrip s != "")).map normalizeToken

/-- `create_custom_type` from `routers/custom_types.py`. The Python
duplicate check compares `len(set(states))` with `len(states)`, i.e.
rejects exactly when the normalized list is not duplicate-free. -/
def create_custom_type (body : CustomTypeCreate) (existing : List CustomActionType)
    (new_id : Nat) : Except CustomTypeError CustomActionType :=
  let name := normalizeToken body.name
  let department := pyStrip body.department
  let terminal_state := normalizeToken body.terminal_state
  let states := normalizeStates body.states
  if states.length < 2 then .error .tooFewStates
  else if ¬ states.Nodup then .error .duplicateStates
  else if states.any (fun s => !matchesStateCharset s) then .error .badStateChars
  else if states.getLast? ≠ some terminal_state then .error .terminalNotLast
  else if department == "" then .error .emptyDepartment
  else if existing.any (fun cat => pyLower (pyStrip cat.name) == pyLower name) then
    .error .duplicateName
  else
    .ok { id := new_id, name := name, department := department, states := states,
          terminal_state := terminal_state,
          sla_routine_minutes := body.sla_routine_minutes,
          sla_urgent_minutes := body.sla_urgent_minutes,
          sla_critical_minutes := body.sla_critical_minutes }

/-- The state-name filter of the background SLA checker in `main.py`
(`current_state.notin_([...])`): a fixed list of state names, not a
per-kind terminality test. -/
def SLA_EXCLUDED_STATES : List String :=
  ["COMPLETED", "ADMINISTERED", "CLOSED", "RECORDED", "FAILED", "CANCELLED"]

/-- One `sla_overdue` broadcast of the SLA checker: the department channel
it goes to and the payload fields derived from the action. -/
structure SlaOverdueEvent where
  department : String
  action_id : Nat
  patient_id : Nat
  current_state : String
  deriving DecidableEq, Repr

/-- The custom-terminal lookup `_custom_terminal` /
`_get_custom_terminal` (safety engine, action router and SLA checker all
repeat it): the stored terminal state of the action's custom type, if
any. -/
def customTerminalOf (st : SystemState) (a : ClinicalAction) : Option String :=
  match a.custom_action_type_id with
  | none => none
  | some cid =>
    match st.customTypes.find? (fun c => c.id == cid) with
    | some cat => some cat.terminal_state
    | none => none

/-- One iteration of `_sla_checker` in `main.py`: select actions whose
state name is outside `SLA_EXCLUDED_STATES`, accumulate the overdue ones
(one `sla_overdue` broadcast each, to the action's primary queue
department), then a single `sla_check` status broadcast carrying the
overdue count, only when the overdue list is nonempty (modelled as the
`Option Nat` component). -/
def slaScanIteration (st : SystemState) (now : Nat) :
    List SlaOverdueEvent × Option Nat :=
  let scanned := st.actions.filter (fun a => !(SLA_EXCLUDED_STATES.contains a.current_state))
  let step := scanned.foldl
    (fun acc action =>
      let custom_terminal := customTerminalOf st action
      if is_action_overdue action custom_terminal now then
        (acc.1 ++ [action.id],
         acc.2 ++ [{ department := primary_queue_department action custom_terminal,
                     action_id := action.id, patient_id := action.patient_id,
                     current_state := action.current_state }])
      else acc)
    (([], []) : List Nat × List SlaOverdueEvent)
  (step.2, if step.1.isEmpty then none else some step.1.length)

/-- The broadcast loop shared by `broadcast_patient`,
`broadcast_department` and `broadcast_status` in `ws.py`: iterate over a
snapshot of the partition taken at the start (`list(...)`), attempt
delivery to each subscriber, and on a delivery failure remove that
subscriber from the live partition and keep going. Subscriber handles are
naturals; `sendOk` tells whether delivery to a handle succeeds (the
Python `try/except` around `send_json`). Returns the successfully
delivered handles in order and the final live partition. -/
def sendAll (sendOk : Nat → Bool) : List Nat → List Nat → List Nat × List Nat
  | [], conns => ([], conns)
  | ws :: rest, conns =>
    if sendOk ws then
      let r := sendAll sendOk rest conns
      (ws :: r.1, r.2)
    else
      sendAll sendOk rest (conns.erase ws)

/-- The three partition registries of `ConnectionManager` in `ws.py`. -/
structure ConnectionManager where
  patient_connections : List (Nat × List Nat)
  department_connections : List (String × List Nat)
  status_connections : List Nat
  deriving DecidableEq, Repr

/-- `dict.get(key, [])` on a keyed partition map. -/
def partitionConns {κ : Type} [BEq κ] (m : List (κ × List Nat)) (k : κ) : List Nat :=
  (m.lookup k).getD []

/-- Write back a partition after a broadcast: the `disconnect_*` helpers
delete a key whose connection list has become empty. -/
def setPartition {κ : Type} [BEq κ] (m : List (κ × List Nat)) (k : κ) (v : List Nat) :
    List (κ × List Nat) :=
  if v.isEmpty then m.filter (fun p => !(p.1 == k))
  else if m.any (fun p => p.1 == k) then m.map (fun p => if p.1 == k then (k, v) else p)
  else m ++ [(k, v)]

/-- `broadcast_patient` from `ws.py`. -/
def broadcast_patient (m : ConnectionManager) (patient_id : Nat) (sendOk : Nat → Bool) :
    ConnectionManager × List Nat :=
  let conns := partitionConns m.patient_connections patient_id
  let r := sendAll sendOk conns conns
  ({ m with patient_connections := setPartition m.patient_connections patient_id r.2 }, r.1)

/-- `broadcast_department` from `ws.py` (keys are
`department.strip().casefold()`). -/
def broadcast_department (m : ConnectionManager) (department : String) (sendOk : Nat → Bool) :
    ConnectionManager × List Nat :=
  let key := pyLower (pyStrip department)
  let conns := partitionConns m.department_connections key
  let r := sendAll sendOk conns conns
  ({ m with department_connections := setPartition m.department_connections key r.2 }, r.1)

/-- `broadcast_status` from `ws.py`. -/
def broadcast_status (m : ConnectionManager) (sendOk : Nat → Bool) :
    ConnectionManager × List Nat :=
  let r := sendAll sendOk m.status_connections m.status_connections
  ({ m with status_connections := r.2 }, r.1)

/-! ### Linear-chain characterization of transition graphs -/

/-- The transition graph derived from an ordered state list: one edge
`state[i] -> state[i+1]` per consecutive pair. -/
def chainGraph (states : List String) : List (String × List String) :=
  (states.zip states.tail).map (fun p => (p.1, [p.2]))

/-- A graph is a linear chain ending in `terminal`: it is the derived
graph of some duplicate-free ordered state list whose last entry is
`terminal`. Every non-terminal state then has exactly one successor, the
terminal state has none, and no state recurs (no branching, no skipping,
no cycles). -/
def IsLinearChainGraph (g : List (String × List String)) (terminal : String) : Prop :=
  ∃ states : List String,
    states.Nodup ∧ g = chainGraph states ∧ states.getLast? = some terminal

/-- What the workflow registry provides for a kind: either a transition
table that is a linear chain ending in the kind's terminal state, or —
only for `VITALS_REQUEST` — no table at all. -/
def RegistryLinear (k : ActionType) : Prop :=
  match VALID_TRANSITIONS k with
  | some g => ∃ t, TERMINAL_STATES k = some t ∧ IsLinearChainGraph g t
  | none => k = ActionType.VITALS_REQUEST

/-- Claim C2, counterexample: the claim quantifies over all five built-in
kinds (diagnostic, medication, referral, care-instruction,
vitals-request), but the registry defines no transition graph for
`VITALS_REQUEST` at all — `VALID_TRANSITIONS` has no entry for it. -/
theorem C2_counterexample :
    VALID_TRANSITIONS ActionType.VITALS_REQUEST = none := rfl

/-- Claim C2 (amended): each built-in kind that has a registered graph
(diagnostic, medication, referral, care-instruction) has a fixed linear
one — a duplicate-free chain, each non-terminal state with exactly one
successor, ending in the kind's terminal state — while vitals-request has
no transition graph. -/
theorem C2_registry_linear_chains : ∀ k : ActionType, RegistryLinear k := by
  intro k
  cases k
  case DIAGNOSTIC =>
    exact ⟨"COMPLETED", rfl,
      ⟨["REQUESTED", "SAMPLE_COLLECTED", "PROCESSING", "COMPLETED"], by decide, rfl, rfl⟩⟩
  case MEDICATION =>
    exact ⟨"ADMINISTERED", rfl,
      ⟨["PRESCRIBED", "DISPENSED", "ADMINISTERED"], by decide, rfl, rfl⟩⟩
  case REFERRAL =>
    exact ⟨"CLOSED", rfl,
      ⟨["INITIATED", "ACKNOWLEDGED", "REVIEWED", "CLOSED"], by decide, rfl, rfl⟩⟩
  case CARE_INSTRUCTION =>
    exact ⟨"COMPLETED", rfl,
      ⟨["ISSUED", "ACKNOWLEDGED", "IN_PROGRESS", "COMPLETED"], by decide, rfl, rfl⟩⟩
  case VITALS_REQUEST => exact rfl

/-! ### Vitals-request partiality -/

/-- Claim C10: the initial-state table has no entry for `VITALS_REQUEST`,
so a create request with that built-in kind hits a failing lookup before
any persistence — the store is never changed and the request always
fails; once every earlier guard passes, the failure is exactly the
unhandled key-lookup error (HTTP 500). The transition validator likewise
has no graph for the kind. Hence no vitals-request action can ever be
created through `createAction`. -/
theorem C10_vitals_request_unconstructible :
    INITIAL_STATES ActionType.VITALS_REQUEST = none ∧
    VALID_TRANSITIONS ActionType.VITALS_REQUEST = none ∧
    (∀ st body user now, body.action_type = some ActionType.VITALS_REQUEST →
      (create_single_action st body user now).1 = st ∧
      ∃ e, (create_single_action st body user now).2 = Except.error e) ∧
    (∀ st body user now patient,
      body.action_type = some ActionType.VITALS_REQUEST →
      body.custom_action_type_id = none →
      st.patients.find? (fun p => p.id == body.patient_id) = some patient →
      patient.admission_status ≠ AdmissionStatus.DISCHARGED →
      pyStrip body.title ≠ "" →
      (create_single_action st body user now).2 = Except.error CreateError.missingInitialState) := by
  refine ⟨rfl, rfl, ?_, ?_⟩
  · intro st body user now hat
    cases hc : body.custom_action_type_id with
    | some cid =>
      simp [create_single_action, hat, hc]
    | none =>
      simp only [create_single_action, hat, hc, Option.isSome_some, Option.isSome_none,
        Bool.and_false, Bool.and_true, Bool.not_true, Bool.not_false, Bool.false_and,
        INITIAL_STATES]
      repeat' split
      all_goals exact ⟨rfl, _, rfl⟩
  · intro st body user now patient hat hc hfind hadm htitle
    have hadm' : (patient.admission_status == AdmissionStatus.DISCHARGED) = false := by
      simp [hadm]
    have htitle' : (pyStrip body.title == "") = false := by
      simp [htitle]
    simp [create_single_action, hat, hc, hfind, hadm', htitle', INITIAL_STATES]

/-! ### Create-time error taxonomy -/

/-- Claim C7: `createAction` fails with the ambiguous-kind conflict when
both of kind and custom-type id are given and when neither is given, and
fails with not-found when the referenced patient (given exactly one of
the two) or the referenced custom type does not exist. -/
theorem C7_create_error_taxonomy :
    (∀ st body user now, body.action_type.isSome → body.custom_action_type_id.isSome →
      create_single_action st body user now = (st, Except.error CreateError.conflictBothKinds)) ∧
    (∀ st body user now, body.action_type = none → body.custom_action_type_id = none →
      create_single_action st body user now = (st, Except.error CreateError.conflictNeitherKind)) ∧
    (∀ st body user now, body.action_type.isSome = !body.custom_action_type_id.isSome →
      st.patients.find? (fun p => p.id == body.patient_id) = none →
      create_single_action st body user now = (st, Except.error CreateError.patientNotFound)) ∧
    (∀ st body user now patient cid,
      body.action_type = none → body.custom_action_type_id = some cid →
      st.patients.find? (fun p => p.id == body.patient_id) = some patient →
      patient.admission_status ≠ AdmissionStatus.DISCHARGED →
      pyStrip body.title ≠ "" →
      st.customTypes.find? (fun c => c.id == cid) = none →
      create_single_action st body user now = (st, Except.error CreateError.customTypeNotFound)) := by
  refine ⟨?_, ?_, ?_, ?_⟩
  · intro st body user now h1 h2
    simp [create_single_action, h1, h2]
  · intro st body user now h1 h2
    simp [create_single_action, h1, h2]
  · intro st body user now hx hfind
    cases hc : body.custom_action_type_id with
    | some cid =>
      have ha : body.action_type.isSome = false := by rw [hx, hc]; rfl
      simp [create_single_action, ha, hc, hfind]
    | none =>
      have ha : body.action_type.isSome = true := by rw [hx, hc]; rfl
      simp [create_single_action, ha, hc, hfind]
  · intro st body user now patient cid h1 h2 hfind hadm htitle hct
    have hadm' : (patient.admission_status == AdmissionStatus.DISCHARGED) = false := by
      simp [hadm]
    have htitle' : (pyStrip body.title == "") = false := by
      simp [htitle]
    simp [create_single_action, h1, h2, hfind, hadm', htitle', hct]

/-! ### Authorization table -/

/-- Claim C6: `roles_allowed_for_transition` realizes the declarative
role table. Diagnostic advancement allows the department's technical role
(Radiologist for Radiology, Lab Tech otherwise) plus Admin, with a
CANCELLED target restricted to Doctor/Admin; medication DISPENSED allows
Pharmacist/Admin, ADMINISTERED Nurse/Admin, CANCELLED Doctor/Admin;
referral allows Doctor/Admin for every state; care-instruction and
vitals-request allow Nurse/Admin, with CANCELLED additionally allowing
Nurse on top of Doctor/Admin; custom kinds allow the department's generic
role mapping plus Admin uniformly; and Admin is allowed for every action
and every target state. -/
theorem C6_role_table :
    (∀ a s, a.custom_action_type_id = none → a.action_type = some ActionType.DIAGNOSTIC →
      roles_allowed_for_transition a s =
        (if s = "CANCELLED" then {UserRole.DOCTOR, UserRole.ADMIN}
         else if pyNorm a.department = "radiology" then {UserRole.RADIOLOGIST, UserRole.ADMIN}
         else {UserRole.LAB_TECH, UserRole.ADMIN})) ∧
    (∀ a, a.custom_action_type_id = none → a.action_type = some ActionType.MEDICATION →
      roles_allowed_for_transition a "DISPENSED" = {UserRole.PHARMACIST, UserRole.ADMIN} ∧
      roles_allowed_for_transition a "ADMINISTERED" = {UserRole.NURSE, UserRole.ADMIN} ∧
      roles_allowed_for_transition a "CANCELLED" = {UserRole.DOCTOR, UserRole.ADMIN}) ∧
    (∀ a s, a.custom_action_type_id = none → a.action_type = some ActionType.REFERRAL →
      roles_allowed_for_transition a s = {UserRole.DOCTOR, UserRole.ADMIN}) ∧
    (∀ a s, a.custom_action_type_id = none →
      (a.action_type = some ActionType.CARE_INSTRUCTION ∨
       a.action_type = some ActionType.VITALS_REQUEST) →
      roles_allowed_for_transition a s =
        (if s = "CANCELLED" then {UserRole.DOCTOR, UserRole.ADMIN, UserRole.NURSE}
         else {UserRole.NURSE, UserRole.ADMIN})) ∧
    (∀ a s, a.custom_action_type_id.isSome →
      roles_allowed_for_transition a s =
        insert UserRole.ADMIN (allowed_roles_for_department a.department)) ∧
    (∀ a s, UserRole.ADMIN ∈ roles_allowed_for_transition a s) := by
  refine ⟨?_, ?_, ?_, ?_, ?_, ?_⟩
  · intro a s hc ht
    by_cases hs : s = "CANCELLED"
    · simp [roles_allowed_for_transition, hc, ht, hs, cancelRoles]
    · by_cases hd : pyNorm a.department = "radiology" <;>
        · simp [roles_allowed_for_transition, hc, ht, hs, hd]
          try decide
  · intro a hc ht
    refine ⟨?_, ?_, ?_⟩ <;> simp [roles_allowed_for_transition, hc, ht, cancelRoles]
  · intro a s hc ht
    simp [roles_allowed_for_transition, hc, ht]
  · intro a s hc ht
    rcases ht with ht | ht <;>
      · by_cases hs : s = "CANCELLED"
        · simp [roles_allowed_for_transition, hc, ht, hs, cancelRoles]
          decide
        · simp [roles_allowed_for_transition, hc, ht, hs]
  · intro a s hc
    simp [roles_allowed_for_transition, hc]
  · intro a s
    unfold roles_allowed_for_transition
    split
    · exact Finset.mem_insert_self _ _
    · split <;> (repeat' split) <;> decide

/-! ### Custom workflow definitions -/

lemma dictInsert_fresh (m : List (String × List String)) (k : String) (v : List String)
    (h : ∀ q ∈ m, q.1 ≠ k) : dictInsert m k v = m ++ [(k, v)] := by
  unfold dictInsert
  have hany : m.any (fun p => p.1 == k) = false := by
    simp only [List.any_eq_false, beq_iff_eq]
    exact h
  simp [hany]

lemma foldl_dictInsert_chain (ps : List (String × String)) (m : List (String × List String))
    (hdisj : ∀ p ∈ ps, ∀ q ∈ m, p.1 ≠ q.1) (hnodup : (ps.map Prod.fst).Nodup) :
    ps.foldl (fun acc p => dictInsert acc p.1 [p.2]) m =
      m ++ ps.map (fun p => (p.1, [p.2])) := by
  induction ps generalizing m with
  | nil => simp
  | cons p rest ih =>
    have hfresh : ∀ q ∈ m, q.1 ≠ p.1 := by
      intro q hq
      exact fun he => (hdisj p (List.mem_cons_self _ _) q hq) he.symm
    have hn := List.nodup_cons.mp hnodup
    simp only [List.foldl_cons, List.map_cons]
    rw [dictInsert_fresh m p.1 [p.2] hfresh, ih]
    · simp
    · intro q hq r hr
      rcases List.mem_append.mp hr with hr | hr
      · exact hdisj q (List.mem_cons_of_mem _ hq) r hr
      · have hr' : r = (p.1, [p.2]) := by simpa using hr
        subst hr'
        intro he
        exact hn.1 (he ▸ List.mem_map_of_mem Prod.fst hq)
    · exact hn.2

lemma map_fst_zip_sublist :
    ∀ (l l' : List String), ((l.zip l').map Prod.fst).Sublist l
  | [], _ => by simp
  | _ :: _, [] => by simp
  | a :: t, b :: t' => by
    simpa using (map_fst_zip_sublist t t').cons₂ a

lemma build_custom_transitions_eq_chain (cat : CustomActionType) (h : cat.states.Nodup) :
    build_custom_transitions cat = chainGraph cat.states := by
  unfold build_custom_transitions chainGraph
  rw [foldl_dictInsert_chain]
  · simp
  · intro p _ q hq
    exact absurd hq (List.not_mem_nil q)
  · exact (map_fst_zip_sublist cat.states cat.states.tail).nodup h

lemma chainGraph_length (l : List String) : (chainGraph l).length = l.length - 1 := by
  unfold chainGraph
  rw [List.length_map, List.length_zip, List.length_tail]
  omega

lemma zip_getElem_some :
    ∀ (l l' : List String) (i : Nat) (a b : String),
      l[i]? = some a → l'[i]? = some b → (l.zip l')[i]? = some (a, b)
  | [], _, i, a, b => by simp
  | _ :: _, [], i, a, b => by simp
  | x :: t, y :: t', 0, a, b => by
    intro h1 h2
    simp only [List.getElem?_cons_zero, Option.some.injEq] at h1 h2
    simp [List.zip_cons_cons, h1, h2]
  | x :: t, y :: t', i + 1, a, b => by
    intro h1 h2
    simp only [List.getElem?_cons_succ] at h1 h2
    simpa [List.zip_cons_cons] using zip_getElem_some t t' i a b h1 h2

lemma tail_getElem_eq (l : List String) (i : Nat) : l.tail[i]? = l[i + 1]? := by
  cases l <;> simp

lemma chainGraph_getElem (l : List String) (i : Nat) (a b : String)
    (h1 : l[i]? = some a) (h2 : l[i + 1]? = some b) :
    (chainGraph l)[i]? = some (a, [b]) := by
  unfold chainGraph
  rw [List.getElem?_map,
    zip_getElem_some l l.tail i a b h1 (by rw [tail_getElem_eq]; exact h2)]
  rfl

/-- Claim C4: custom workflow creation rejects a request whose normalized
state list has fewer than 2 states, duplicate states, a state with a
character outside `[A-Z0-9_]`, or a terminal state differing from the
last state; and every stored definition has a duplicate-free state list
of length N ≥ 2 whose derived graph is exactly the N−1 consecutive edges
`state[i] -> state[i+1]` — no skip-ahead, no revisit. -/
theorem C4_custom_workflow_graph :
    (∀ body existing new_id,
      ((normalizeStates body.states).length < 2 ∨
       ¬ (normalizeStates body.states).Nodup ∨
       (∃ s ∈ normalizeStates body.states, matchesStateCharset s = false) ∨
       (normalizeStates body.states).getLast? ≠ some (normalizeToken body.terminal_state)) →
      ∃ e, create_custom_type body existing new_id = Except.error e) ∧
    (∀ body existing new_id cat,
      create_custom_type body existing new_id = Except.ok cat →
      cat.states.Nodup ∧ 2 ≤ cat.states.length ∧
      cat.states.getLast? = some cat.terminal_state ∧
      build_custom_transitions cat = chainGraph cat.states ∧
      (build_custom_transitions cat).length = cat.states.length - 1 ∧
      (∀ i s1 s2, cat.states[i]? = some s1 → cat.states[i + 1]? = some s2 →
        (build_custom_transitions cat)[i]? = some (s1, [s2]))) := by
  constructor
  · intro body existing new_id h
    simp only [create_custom_type]
    split
    · exact ⟨_, rfl⟩
    · split
      · exact ⟨_, rfl⟩
      · split
        · exact ⟨_, rfl⟩
        · split
          · exact ⟨_, rfl⟩
          · rename_i hn1 hn2 hn3 hn4
            exfalso
            rcases h with h | h | h | h
            · exact hn1 h
            · exact h (not_not.mp hn2)
            · rcases h with ⟨s, hs, hsf⟩
              exact hn3 (List.any_eq_true.mpr ⟨s, hs, by simp [hsf]⟩)
            · exact h (not_not.mp hn4)
  · intro body existing new_id cat hok
    simp only [create_custom_type] at hok
    split at hok; · exact absurd hok (by simp)
    split at hok; · exact absurd hok (by simp)
    split at hok; · exact absurd hok (by simp)
    split at hok; · exact absurd hok (by simp)
    split at hok; · exact absurd hok (by simp)
    split at hok; · exact absurd hok (by simp)
    rename_i hn1 hn2 hn3 hn4 hn5 hn6
    have hcat : _ = cat := Except.ok.inj hok
    subst hcat
    have hnodup : (normalizeStates body.states).Nodup := not_not.mp hn2
    refine ⟨hnodup, show 2 ≤ (normalizeStates body.states).length by omega,
      not_not.mp hn4, ?_, ?_, ?_⟩
    · exact build_custom_transitions_eq_chain _ hnodup
    · rw [build_custom_transitions_eq_chain _ hnodup, chainGraph_length]
    · intro i s1 s2 h1 h2
      rw [build_custom_transitions_eq_chain _ hnodup]
      exact chainGraph_getElem _ i s1 s2 h1 h2

/-! ### Medication dependency -/

/-- The patient's pending diagnostics: diagnostic actions of the patient
whose (uppercased) current state is not COMPLETED — exactly the
`incomplete` list of `medication_dependency_violation`. -/
def pendingDiagnostics (st : SystemState) (patient_id : Nat) : List ClinicalAction :=
  (st.actions.filter (fun a =>
    a.patient_id == patient_id && a.action_type == some ActionType.DIAGNOSTIC)).filter
    (fun d => pyUpper d.current_state != "COMPLETED")

lemma mem_pendingDiagnostics (st : SystemState) (pid : Nat) (d : ClinicalAction) :
    d ∈ pendingDiagnostics st pid ↔
      d ∈ st.actions ∧ d.patient_id = pid ∧ d.action_type = some ActionType.DIAGNOSTIC ∧
        pyUpper d.current_state ≠ "COMPLETED" := by
  unfold pendingDiagnostics
  simp only [List.mem_filter, Bool.and_eq_true, beq_iff_eq, bne_iff_ne, ne_eq]
  tauto

lemma medication_dependency_violation_char (action : ClinicalAction) (st : SystemState)
    (h : action.action_type = some ActionType.MEDICATION) :
    medication_dependency_violation action "ADMINISTERED" st =
      if (pendingDiagnostics st action.patient_id).isEmpty then none
      else some (depViolationMsg (pendingDiagnostics st action.patient_id).length) := by
  by_cases hD : (st.actions.filter (fun a =>
      a.patient_id == action.patient_id && a.action_type == some ActionType.DIAGNOSTIC)).isEmpty
  · have hnil := List.isEmpty_iff.mp hD
    simp [medication_dependency_violation, pendingDiagnostics, h, hD, hnil]
  · simp [medication_dependency_violation, pendingDiagnostics, h, hD]

/-- Claim C5: the dependency check fires exactly for a medication action
moving to ADMINISTERED while some diagnostic of the same patient is not
COMPLETED; the rejection message reports the pending-diagnostic count; it
never fires for another kind or another target state; and through the
full transition pipeline an otherwise-valid DISPENSED → ADMINISTERED
nurse transition is rejected with the dependency violation exactly in
that situation and succeeds once every diagnostic of the patient is
COMPLETED. -/
theorem C5_medication_dependency :
    (∀ action new_state st,
      (medication_dependency_violation action new_state st).isSome ↔
        (new_state = "ADMINISTERED" ∧ action.action_type = some ActionType.MEDICATION ∧
         ∃ d ∈ st.actions, d.patient_id = action.patient_id ∧
           d.action_type = some ActionType.DIAGNOSTIC ∧
           pyUpper d.current_state ≠ "COMPLETED")) ∧
    (∀ action new_state st msg,
      medication_dependency_violation action new_state st = some msg →
      msg = depViolationMsg (pendingDiagnostics st action.patient_id).length ∧
      0 < (pendingDiagnostics st action.patient_id).length) ∧
    (∀ st action_id action patient current_user req_notes now,
      st.actions.find? (fun a => a.id == action_id) = some action →
      st.patients.find? (fun p => p.id == action.patient_id) = some patient →
      patient.admission_status ≠ AdmissionStatus.DISCHARGED →
      action.custom_action_type_id = none →
      action.action_type = some ActionType.MEDICATION →
      action.current_state = "DISPENSED" →
      current_user.role = UserRole.NURSE →
      (∀ d ∈ st.actions, d.patient_id = action.patient_id →
        d.action_type = some ActionType.DIAGNOSTIC → pyUpper d.current_state = "COMPLETED") →
      ∃ a, (transition_single_action st action_id "ADMINISTERED" req_notes current_user now).2
          = Except.ok a ∧ a.current_state = "ADMINISTERED") ∧
    (∀ st action_id action patient current_user req_notes now,
      st.actions.find? (fun a => a.id == action_id) = some action →
      st.patients.find? (fun p => p.id == action.patient_id) = some patient →
      patient.admission_status ≠ AdmissionStatus.DISCHARGED →
      action.custom_action_type_id = none →
      action.action_type = some ActionType.MEDICATION →
      action.current_state = "DISPENSED" →
      current_user.role = UserRole.NURSE →
      (∃ d ∈ st.actions, d.patient_id = action.patient_id ∧
        d.action_type = some ActionType.DIAGNOSTIC ∧ pyUpper d.current_state ≠ "COMPLETED") →
      (transition_single_action st action_id "ADMINISTERED" req_notes current_user now).2
        = Except.error (TransitionError.dependencyViolation
            (depViolationMsg (pendingDiagnostics st action.patient_id).length))) := by
  have hns : pyUpper (pyStrip "ADMINISTERED") = "ADMINISTERED" := by decide
  refine ⟨?_, ?_, ?_, ?_⟩
  · intro action new_state st
    by_cases h1 : new_state = "ADMINISTERED"
    · subst h1
      by_cases h2 : action.action_type = some ActionType.MEDICATION
      · rw [medication_dependency_violation_char action st h2]
        by_cases hI : (pendingDiagnostics st action.patient_id).isEmpty
        · simp only [hI, if_true, Option.isSome_none, Bool.false_eq_true, false_iff]
          intro hcon
          rcases hcon with ⟨_, _, d, hd, hpid, hkind, hne⟩
          have hmem : d ∈ pendingDiagnostics st action.patient_id :=
            (mem_pendingDiagnostics st action.patient_id d).mpr ⟨hd, hpid, hkind, hne⟩
          rw [List.isEmpty_iff.mp hI] at hmem
          exact List.not_mem_nil d hmem
        · simp only [hI, if_false, Option.isSome_some, true_iff, Bool.false_eq_true]
          refine ⟨by trivial, h2, ?_⟩
          have hne : pendingDiagnostics st action.patient_id ≠ [] := by
            intro he
            exact hI (by simp [he])
          obtain ⟨d, hd⟩ := List.exists_mem_of_ne_nil _ hne
          obtain ⟨ha, hb, hc, he⟩ := (mem_pendingDiagnostics st action.patient_id d).mp hd
          exact ⟨d, ha, hb, hc, he⟩
      · simp [medication_dependency_violation, h2]
    · simp [medication_dependency_violation, h1]
  · intro action new_state st msg hsome
    by_cases h1 : new_state = "ADMINISTERED"
    · subst h1
      by_cases h2 : action.action_type = some ActionType.MEDICATION
      · rw [medication_dependency_violation_char action st h2] at hsome
        by_cases hI : (pendingDiagnostics st action.patient_id).isEmpty
        · simp [hI] at hsome
        · simp only [hI, if_false, Option.some.injEq, Bool.false_eq_true] at hsome
          refine ⟨hsome.symm, ?_⟩
          cases hp : pendingDiagnostics st action.patient_id with
          | nil => rw [hp] at hI; exact absurd rfl hI
          | cons x xs => simp
      · simp [medication_dependency_violation, h2] at hsome
    · simp [medication_dependency_violation, h1] at hsome
  · intro st action_id action patient current_user req_notes now hfind hpfind hadm hcustom
      hkind hcur hrole hAll
    have hadm' : (patient.admission_status == AdmissionStatus.DISCHARGED) = false := by
      simp [hadm]
    have hval : validate_transition action.action_type action.current_state
        "ADMINISTERED" = .ok () := by
      rw [hkind, hcur]; rfl
    have hpend : pendingDiagnostics st action.patient_id = [] := by
      rw [List.eq_nil_iff_forall_not_mem]
      intro d hd
      obtain ⟨ha, hb, hc, he⟩ := (mem_pendingDiagnostics st action.patient_id d).mp hd
      exact he (hAll d ha hb hc)
    have hdep : medication_dependency_violation action "ADMINISTERED" st = none := by
      rw [medication_dependency_violation_char action st hkind, hpend]
      rfl
    have hroleset : roles_allowed_for_transition action "ADMINISTERED" =
        {UserRole.NURSE, UserRole.ADMIN} := by
      simp [roles_allowed_for_transition, hcustom, hkind]
    have hrmem : ¬ current_user.role ∉ roles_allowed_for_transition action "ADMINISTERED" := by
      rw [hroleset, hrole]; decide
    have hne0 : ("ADMINISTERED" == "") = false := by decide
    simp only [transition_single_action, hfind, hpfind, hadm', hcustom, hns, hval,
      hne0, Bool.false_eq_true, if_false]
    simp only [transition_validated, hdep, if_neg hrmem]
    exact ⟨_, rfl, rfl⟩
  · intro st action_id action patient current_user req_notes now hfind hpfind hadm hcustom
      hkind hcur hrole hex
    have hadm' : (patient.admission_status == AdmissionStatus.DISCHARGED) = false := by
      simp [hadm]
    have hval : validate_transition action.action_type action.current_state
        "ADMINISTERED" = .ok () := by
      rw [hkind, hcur]; rfl
    have hpend : ¬ (pendingDiagnostics st action.patient_id).isEmpty := by
      obtain ⟨d, hd, hb, hc, he⟩ := hex
      have hmem : d ∈ pendingDiagnostics st action.patient_id :=
        (mem_pendingDiagnostics st action.patient_id d).mpr ⟨hd, hb, hc, he⟩
      intro hI
      rw [List.isEmpty_iff.mp hI] at hmem
      exact List.not_mem_nil d hmem
    have hdep : medication_dependency_violation action "ADMINISTERED" st =
        some (depViolationMsg (pendingDiagnostics st action.patient_id).length) := by
      rw [medication_dependency_violation_char action st hkind, if_neg (by simpa using hpend)]
    have hroleset : roles_allowed_for_transition action "ADMINISTERED" =
        {UserRole.NURSE, UserRole.ADMIN} := by
      simp [roles_allowed_for_transition, hcustom, hkind]
    have hrmem : ¬ current_user.role ∉ roles_allowed_for_transition action "ADMINISTERED" := by
      rw [hroleset, hrole]; decide
    have hne0 : ("ADMINISTERED" == "") = false := by decide
    simp only [transition_single_action, hfind, hpfind, hadm', hcustom, hns, hval,
      hne0, Bool.false_eq_true, if_false]
    simp only [transition_validated, hdep, if_neg hrmem]

/-! ### Transition outcome accounting -/

lemma recordBlockedEvent_eq (st : SystemState) (action : ClinicalAction) (et : String)
    (sev : SafetySeverity) (desc : String) (now : Nat) :
    recordBlockedEvent st action et sev desc now =
      { st with safetyEvents := st.safetyEvents ++
          [{ patient_id := some action.patient_id, action_id := some action.id,
             event_type := pyUpper (pyStrip et), severity := sev,
             description := pyStrip desc, blocked := true, created_at := now }] } := rfl

/-- Every run of the transition endpoint on an existing action of a
non-discharged patient lands in one of six shapes: a plain rejection with
no store change (blank state, missing custom type), one of the three
blocked rejections that append exactly one safety event, or the accepted
write. -/
lemma transition_single_action_shape (st : SystemState) (action_id : Nat)
    (rns rnotes : String) (u : User) (now : Nat) (action : ClinicalAction) (patient : Patient)
    (h1 : st.actions.find? (fun a => a.id == action_id) = some action)
    (h2 : st.patients.find? (fun p => p.id == action.patient_id) = some patient)
    (h3 : patient.admission_status ≠ AdmissionStatus.DISCHARGED) :
    (transition_single_action st action_id rns rnotes u now = (st, .error .emptyNewState)) ∨
    (transition_single_action st action_id rns rnotes u now =
      (st, .error .customTypeNotFound)) ∨
    (∃ msg, transition_single_action st action_id rns rnotes u now =
      (recordBlockedEvent st action "UNSAFE_TRANSITION" SafetySeverity.WARNING msg now,
       .error (.invalidTransition msg))) ∨
    (transition_single_action st action_id rns rnotes u now =
      (recordBlockedEvent st action "ROLE_VIOLATION" SafetySeverity.WARNING
         (roleViolationMsg u.role (pyUpper (pyStrip rns)) action.id) now,
       .error (.forbidden u.role (pyUpper (pyStrip rns))))) ∨
    (∃ msg, transition_single_action st action_id rns rnotes u now =
      (recordBlockedEvent st action "MEDICATION_DEPENDENCY" SafetySeverity.CRITICAL msg now,
       .error (.dependencyViolation msg))) ∨
    (∃ upd ev, transition_single_action st action_id rns rnotes u now =
      ({ st with
          actions := st.actions.map (fun a => if a.id == action.id then upd else a),
          events := st.events ++ [ev] }, .ok upd) ∧
      ev.action_id = action.id ∧ ev.previous_state = action.current_state ∧
      ev.new_state = pyUpper (pyStrip rns) ∧
      upd = { action with current_state := pyUpper (pyStrip rns), updated_at := now }) := by
  have hadm' : (patient.admission_status == AdmissionStatus.DISCHARGED) = false := by
    simp [h3]
  simp only [transition_single_action, h1, h2, hadm', Bool.false_eq_true, if_false]
  split
  · exact Or.inl rfl
  · split
    · split
      · exact Or.inr (Or.inl rfl)
      · split
        · rename_i msg heq
          exact Or.inr (Or.inr (Or.inl ⟨msg, rfl⟩))
        · simp only [transition_validated]
          split
          · exact Or.inr (Or.inr (Or.inr (Or.inl rfl)))
          · split
            · rename_i msg heq
              exact Or.inr (Or.inr (Or.inr (Or.inr (Or.inl ⟨msg, rfl⟩))))
            · exact Or.inr (Or.inr (Or.inr (Or.inr (Or.inr
                ⟨_, _, rfl, rfl, rfl, rfl, rfl⟩))))
    · split
      · rename_i msg heq
        exact Or.inr (Or.inr (Or.inl ⟨msg, rfl⟩))
      · simp only [transition_validated]
        split
        · exact Or.inr (Or.inr (Or.inr (Or.inl rfl)))
        · split
          · rename_i msg heq
            exact Or.inr (Or.inr (Or.inr (Or.inr (Or.inl ⟨msg, rfl⟩))))
          · exact Or.inr (Or.inr (Or.inr (Or.inr (Or.inr
              ⟨_, _, rfl, rfl, rfl, rfl, rfl⟩))))

/-- Claim C1: on an existing action of a non-discharged patient, a
rejection for a state-graph violation, a role denial or a dependency
violation appends exactly one blocked safety event (types
UNSAFE_TRANSITION / ROLE_VIOLATION / MEDICATION_DEPENDENCY with
severities WARNING / WARNING / CRITICAL) and leaves actions and the
action-event log untouched, while an accepted transition appends exactly
one action event and no safety event. -/
theorem C1_transition_safety_accounting :
    ∀ st action_id req_new_state req_notes current_user now action patient,
      st.actions.find? (fun a => a.id == action_id) = some action →
      st.patients.find? (fun p => p.id == action.patient_id) = some patient →
      patient.admission_status ≠ AdmissionStatus.DISCHARGED →
      ((∀ msg,
        (transition_single_action st action_id req_new_state req_notes current_user now).2 =
          Except.error (TransitionError.invalidTransition msg) →
        ∃ ev,
          (transition_single_action st action_id req_new_state req_notes current_user now).1 =
            { st with safetyEvents := st.safetyEvents ++ [ev] } ∧
          ev.event_type = "UNSAFE_TRANSITION" ∧ ev.severity = SafetySeverity.WARNING ∧
          ev.blocked = true) ∧
      (∀ r ns,
        (transition_single_action st action_id req_new_state req_notes current_user now).2 =
          Except.error (TransitionError.forbidden r ns) →
        ∃ ev,
          (transition_single_action st action_id req_new_state req_notes current_user now).1 =
            { st with safetyEvents := st.safetyEvents ++ [ev] } ∧
          ev.event_type = "ROLE_VIOLATION" ∧ ev.severity = SafetySeverity.WARNING ∧
          ev.blocked = true) ∧
      (∀ msg,
        (transition_single_action st action_id req_new_state req_notes current_user now).2 =
          Except.error (TransitionError.dependencyViolation msg) →
        ∃ ev,
          (transition_single_action st action_id req_new_state req_notes current_user now).1 =
            { st with safetyEvents := st.safetyEvents ++ [ev] } ∧
          ev.event_type = "MEDICATION_DEPENDENCY" ∧ ev.severity = SafetySeverity.CRITICAL ∧
          ev.blocked = true) ∧
      (∀ a,
        (transition_single_action st action_id req_new_state req_notes current_user now).2 =
          Except.ok a →
        ∃ e,
          (transition_single_action st action_id req_new_state req_notes current_user now).1.events =
            st.events ++ [e] ∧
          (transition_single_action st action_id req_new_state req_notes current_user now).1.safetyEvents =
            st.safetyEvents ∧
          e.action_id = a.id ∧ e.new_state = a.current_state)) := by
  intro st action_id rns rnotes u now action patient h1 h2 h3
  have hsh := transition_single_action_shape st action_id rns rnotes u now action patient h1 h2 h3
  refine ⟨?_, ?_, ?_, ?_⟩
  · intro msg h
    rcases hsh with hs | hs | ⟨m, hs⟩ | hs | ⟨m, hs⟩ | ⟨upd, ev, hs, h4, h5, h6, h7⟩ <;>
        rw [hs] at h ⊢ <;> simp only [Prod.snd] at h
    · exact absurd h (by simp)
    · exact absurd h (by simp)
    · rw [recordBlockedEvent_eq]
      exact ⟨_, rfl,
        (by decide : pyUpper (pyStrip "UNSAFE_TRANSITION") = "UNSAFE_TRANSITION"), rfl, rfl⟩
    · exact absurd h (by simp)
    · exact absurd h (by simp)
    · exact absurd h (by simp)
  · intro r ns h
    rcases hsh with hs | hs | ⟨m, hs⟩ | hs | ⟨m, hs⟩ | ⟨upd, ev, hs, h4, h5, h6, h7⟩ <;>
        rw [hs] at h ⊢ <;> simp only [Prod.snd] at h
    · exact absurd h (by simp)
    · exact absurd h (by simp)
    · exact absurd h (by simp)
    · rw [recordBlockedEvent_eq]
      exact ⟨_, rfl,
        (by decide : pyUpper (pyStrip "ROLE_VIOLATION") = "ROLE_VIOLATION"), rfl, rfl⟩
    · exact absurd h (by simp)
    · exact absurd h (by simp)
  · intro msg h
    rcases hsh with hs | hs | ⟨m, hs⟩ | hs | ⟨m, hs⟩ | ⟨upd, ev, hs, h4, h5, h6, h7⟩ <;>
        rw [hs] at h ⊢ <;> simp only [Prod.snd] at h
    · exact absurd h (by simp)
    · exact absurd h (by simp)
    · exact absurd h (by simp)
    · exact absurd h (by simp)
    · rw [recordBlockedEvent_eq]
      exact ⟨_, rfl,
        (by decide : pyUpper (pyStrip "MEDICATION_DEPENDENCY") = "MEDICATION_DEPENDENCY"),
        rfl, rfl⟩
    · exact absurd h (by simp)
  · intro a h
    rcases hsh with hs | hs | ⟨m, hs⟩ | hs | ⟨m, hs⟩ | ⟨upd, ev, hs, h4, h5, h6, h7⟩ <;>
        rw [hs] at h ⊢ <;> simp only [Prod.snd] at h
    · exact absurd h (by simp)
    · exact absurd h (by simp)
    · exact absurd h (by simp)
    · exact absurd h (by simp)
    · exact absurd h (by simp)
    · have hau : upd = a := by simpa using h
      subst hau
      refine ⟨ev, by simp, by simp, ?_, ?_⟩
      · rw [h4, h7]
      · rw [h6, h7]

/-! ### The state/event-log invariant -/

/-- The most recent `ActionEvent` of an action (events are appended in
chronological order, so the last matching entry is the most recent). -/
def lastEventFor (events : List ActionEvent) (aid : Nat) : Option ActionEvent :=
  (events.filter (fun e => e.action_id == aid)).getLast?

/-- The §3 invariant: every action's `current_state` is exactly the
`new_state` of its most recent `ActionEvent`. -/
def StateEventInvariant (st : SystemState) : Prop :=
  ∀ a ∈ st.actions, ∃ e, lastEventFor st.events a.id = some e ∧ e.new_state = a.current_state

lemma lastEventFor_append (evs : List ActionEvent) (e' : ActionEvent) (aid : Nat) :
    lastEventFor (evs ++ [e']) aid =
      if e'.action_id == aid then some e' else lastEventFor evs aid := by
  unfold lastEventFor
  rw [List.filter_append]
  by_cases h : (e'.action_id == aid) = true
  · simp [h, List.getLast?_concat]
  · simp [h]

lemma mem_le_fold_max (l : List Nat) (x : Nat) (hx : x ∈ l) : x ≤ l.foldr max 0 := by
  induction l with
  | nil => cases hx
  | cons y t ih =>
    rcases List.mem_cons.mp hx with h | h
    · subst h
      exact le_max_left _ _
    · exact le_trans (ih h) (le_max_right _ _)

lemma freshActionId_not_mem (st : SystemState) (a : ClinicalAction) (ha : a ∈ st.actions) :
    a.id ≠ freshActionId st := by
  unfold freshActionId
  have := mem_le_fold_max (st.actions.map (fun a => a.id)) a.id
    (List.mem_map_of_mem (fun a => a.id) ha)
  omega

lemma finishCreate_preserves_invariant (st : SystemState) (body : ActionCreate) (u : User)
    (now : Nat) (title notes init dept : String) (sla : Nat)
    (hinv : StateEventInvariant st) :
    StateEventInvariant (finishCreate st body u now title notes init dept sla).1 := by
  intro a' ha'
  unfold finishCreate at ha'
  simp only [List.mem_append, List.mem_singleton] at ha'
  show ∃ e, lastEventFor (st.events ++ [_]) a'.id = some e ∧ e.new_state = a'.current_state
  rcases ha' with ha' | rfl
  · obtain ⟨e, he, hn⟩ := hinv a' ha'
    refine ⟨e, ?_, hn⟩
    rw [lastEventFor_append]
    have hne : (freshActionId st == a'.id) = false := by
      have hx := freshActionId_not_mem st a' ha'
      simp only [beq_eq_false_iff_ne]
      exact Ne.symm hx
    simp only [hne, Bool.false_eq_true, if_false]
    exact he
  · refine ⟨{ action_id := freshActionId st, actor_id := some u.id,
              actor_role := some u.role, previous_state := "", new_state := init,
              notes := "", timestamp := now }, ?_, rfl⟩
    rw [lastEventFor_append]
    simp

lemma create_single_action_shape (st : SystemState) (body : ActionCreate) (u : User)
    (now : Nat) :
    (∃ err, create_single_action st body u now = (st, Except.error err)) ∨
    (∃ title notes init dept sla,
      create_single_action st body u now = finishCreate st body u now title notes init dept sla) := by
  simp only [create_single_action]
  repeat' split
  all_goals first
    | exact Or.inl ⟨_, rfl⟩
    | exact Or.inr ⟨_, _, _, _, _, rfl⟩

lemma create_preserves_invariant (st : SystemState) (body : ActionCreate) (u : User)
    (now : Nat) (hinv : StateEventInvariant st) :
    StateEventInvariant (create_single_action st body u now).1 := by
  rcases create_single_action_shape st body u now with ⟨err, hs⟩ | ⟨t, n, i, d, sla, hs⟩
  · rw [hs]
    exact hinv
  · rw [hs]
    exact finishCreate_preserves_invariant st body u now t n i d sla hinv

lemma create_success_shape (st : SystemState) (body : ActionCreate) (u : User) (now : Nat)
    (a : ClinicalAction) (h : (create_single_action st body u now).2 = Except.ok a) :
    ∃ e, (create_single_action st body u now).1.events = st.events ++ [e] ∧
      e.action_id = a.id ∧ e.previous_state = "" ∧ e.new_state = a.current_state := by
  rcases create_single_action_shape st body u now with ⟨err, hs⟩ | ⟨t, n, i, d, sla, hs⟩
  · rw [hs] at h
    exact absurd h (by simp)
  · rw [hs] at h ⊢
    have ha : _ = a := Except.ok.inj h
    subst ha
    exact ⟨_, rfl, rfl, rfl, rfl⟩

lemma transition_store_parts (st : SystemState) (action_id : Nat) (rns rnotes : String)
    (u : User) (now : Nat) :
    ((transition_single_action st action_id rns rnotes u now).1.actions = st.actions ∧
     (transition_single_action st action_id rns rnotes u now).1.events = st.events) ∨
    (∃ a, (transition_single_action st action_id rns rnotes u now).2 = Except.ok a) := by
  simp only [transition_single_action, transition_validated]
  repeat' split
  all_goals first
    | exact Or.inl ⟨rfl, rfl⟩
    | exact Or.inr ⟨_, rfl⟩

lemma transition_preserves_invariant (st : SystemState) (action_id : Nat) (rns rnotes : String)
    (u : User) (now : Nat) (hinv : StateEventInvariant st) :
    StateEventInvariant (transition_single_action st action_id rns rnotes u now).1 := by
  cases hfa : st.actions.find? (fun a => a.id == action_id) with
  | none =>
    simp only [transition_single_action, hfa]
    exact hinv
  | some action =>
    cases hfp : st.patients.find? (fun p => p.id == action.patient_id) with
    | none =>
      simp only [transition_single_action, hfa, hfp]
      exact hinv
    | some patient =>
      by_cases hd : patient.admission_status = AdmissionStatus.DISCHARGED
      · simp only [transition_single_action, hfa, hfp, hd, beq_self_eq_true, if_true]
        exact hinv
      · rcases transition_single_action_shape st action_id rns rnotes u now action patient
            hfa hfp hd with
          hs | hs | ⟨m, hs⟩ | hs | ⟨m, hs⟩ | ⟨upd, ev, hs, h4, h5, h6, h7⟩
        · rw [hs]; exact hinv
        · rw [hs]; exact hinv
        · rw [hs]; exact hinv
        · rw [hs]; exact hinv
        · rw [hs]; exact hinv
        · rw [hs]
          intro a' ha'
          obtain ⟨a0, ha0, rfl⟩ := List.mem_map.mp ha'
          by_cases hb : (a0.id == action.id) = true
          · simp only [hb, if_true]
            refine ⟨ev, ?_, ?_⟩
            · show lastEventFor (st.events ++ [ev]) upd.id = some ev
              rw [lastEventFor_append]
              have hbe : (ev.action_id == upd.id) = true := by
                rw [h4, h7]
                simp
              simp [hbe]
            · rw [h6, h7]
          · simp only [hb, Bool.false_eq_true, if_false]
            obtain ⟨e0, he0, hn0⟩ := hinv a0 ha0
            refine ⟨e0, ?_, hn0⟩
            show lastEventFor (st.events ++ [ev]) a0.id = some e0
            rw [lastEventFor_append]
            have hb' : a0.id ≠ action.id := by simpa using hb
            have hbe : (ev.action_id == a0.id) = false := by
              rw [h4]
              simp only [beq_eq_false_iff_ne]
              exact Ne.symm hb'
            simp [hbe, he0]

lemma transition_ok_shape (st : SystemState) (action_id : Nat) (rns rnotes : String)
    (u : User) (now : Nat) (a : ClinicalAction)
    (h : (transition_single_action st action_id rns rnotes u now).2 = Except.ok a) :
    ∃ e, (transition_single_action st action_id rns rnotes u now).1.events = st.events ++ [e] ∧
      e.action_id = a.id ∧ e.new_state = a.current_state := by
  cases hfa : st.actions.find? (fun a => a.id == action_id) with
  | none =>
    simp only [transition_single_action, hfa] at h
    exact absurd h (by simp)
  | some action =>
    cases hfp : st.patients.find? (fun p => p.id == action.patient_id) with
    | none =>
      simp only [transition_single_action, hfa, hfp] at h
      exact absurd h (by simp)
    | some patient =>
      by_cases hd : patient.admission_status = AdmissionStatus.DISCHARGED
      · simp only [transition_single_action, hfa, hfp, hd, beq_self_eq_true, if_true] at h
        exact absurd h (by simp)
      · rcases transition_single_action_shape st action_id rns rnotes u now action patient
            hfa hfp hd with
          hs | hs | ⟨m, hs⟩ | hs | ⟨m, hs⟩ | ⟨upd, ev, hs, h4, h5, h6, h7⟩
        · rw [hs] at h; exact absurd h (by simp)
        · rw [hs] at h; exact absurd h (by simp)
        · rw [hs] at h; exact absurd h (by simp)
        · rw [hs] at h; exact absurd h (by simp)
        · rw [hs] at h; exact absurd h (by simp)
        · rw [hs] at h ⊢
          have hau : upd = a := by simpa using h
          subst hau
          refine ⟨ev, rfl, ?_, ?_⟩
          · rw [h4, h7]
          · rw [h6, h7]

lemma find_eq_of_nodup_ids (st : SystemState) (action_id : Nat) (action a : ClinicalAction)
    (hId : (st.actions.map (fun x => x.id)).Nodup)
    (hfind : st.actions.find? (fun a => a.id == action_id) = some action)
    (ha : a ∈ st.actions) (hid : a.id = action_id) : a = action := by
  have hactmem : action ∈ st.actions := List.mem_of_find?_eq_some hfind
  have hactid := List.find?_some hfind
  have hactid' : action.id = action_id := by simpa using hactid
  exact List.inj_on_of_nodup_map hId ha hactmem (by rw [hid, hactid'])

lemma map_edit_pairs (st : SystemState) (action_id : Nat) (action a4 : ClinicalAction)
    (hId : (st.actions.map (fun x => x.id)).Nodup)
    (hfind : st.actions.find? (fun a => a.id == action_id) = some action)
    (hid4 : a4.id = action.id) (hstate : a4.current_state = action.current_state) :
    (st.actions.map (fun a => if a.id == action_id then a4 else a)).map
        (fun a => (a.id, a.current_state)) =
      st.actions.map (fun a => (a.id, a.current_state)) := by
  rw [List.map_map]
  apply List.map_congr_left
  intro a ha
  by_cases hb : (a.id == action_id) = true
  · have ha' : a = action :=
      find_eq_of_nodup_ids st action_id action a hId hfind ha (by simpa using hb)
    subst ha'
    simp [Function.comp, hb, hid4, hstate]
  · simp [Function.comp, hb]

lemma map_edit_invariant (st : SystemState) (action_id : Nat) (action a4 : ClinicalAction)
    (hfind : st.actions.find? (fun a => a.id == action_id) = some action)
    (hid4 : a4.id = action.id) (hstate : a4.current_state = action.current_state)
    (hinv : StateEventInvariant st) :
    StateEventInvariant
      { st with actions := st.actions.map (fun a => if a.id == action_id then a4 else a) } := by
  intro a' ha'
  obtain ⟨a0, ha0, rfl⟩ := List.mem_map.mp ha'
  by_cases hb : (a0.id == action_id) = true
  · simp only [hb, if_true]
    have hactmem : action ∈ st.actions := List.mem_of_find?_eq_some hfind
    obtain ⟨e, he, hn⟩ := hinv action hactmem
    refine ⟨e, ?_, ?_⟩
    · show lastEventFor st.events a4.id = some e
      rw [hid4]
      exact he
    · rw [hstate]
      exact hn
  · simp only [hb, Bool.false_eq_true, if_false]
    exact hinv a0 ha0

lemma edit_action_shape (st : SystemState) (action_id : Nat) (body : ActionEdit) (now : Nat) :
    (∃ e, edit_action st action_id body now = (st, Except.error e)) ∨
    (∃ action a4, st.actions.find? (fun a => a.id == action_id) = some action ∧
      a4.id = action.id ∧ a4.current_state = action.current_state ∧
      edit_action st action_id body now =
        ({ st with actions := st.actions.map (fun a => if a.id == action_id then a4 else a) },
         Except.ok a4)) := by
  cases hfa : st.actions.find? (fun a => a.id == action_id) with
  | none =>
    simp only [edit_action, hfa]
    exact Or.inl ⟨_, rfl⟩
  | some action =>
    simp only [edit_action, hfa]
    split
    · exact Or.inl ⟨_, rfl⟩
    · rename_i a1 heq
      have hstep : a1.id = action.id ∧ a1.current_state = action.current_state := by
        split at heq
        · split at heq
          · exact absurd heq (by simp)
          · have h1 : _ = a1 := Except.ok.inj heq
            subst h1
            exact ⟨rfl, rfl⟩
        · have h1 : _ = a1 := Except.ok.inj heq
          subst h1
          exact ⟨rfl, rfl⟩
      repeat' split
      all_goals refine Or.inr ⟨action, _, rfl, ?_, ?_, rfl⟩
      all_goals first
        | exact hstep.1
        | exact hstep.2

/-- Claim C3: `current_state` always equals the `new_state` of the
action's most recent `ActionEvent`, and every modelled operation
preserves this: creation writes exactly one synthetic event whose
`new_state` is the initial state (empty `previous_state`); a successful
transition sets `current_state` and appends the matching event in the
same write; a failed transition changes neither the actions nor the event
log; and edits touch neither any `current_state` nor the event log. -/
theorem C3_current_state_invariant :
    (∀ st body u now a,
      (create_single_action st body u now).2 = Except.ok a →
      ∃ e, (create_single_action st body u now).1.events = st.events ++ [e] ∧
        e.action_id = a.id ∧ e.previous_state = "" ∧ e.new_state = a.current_state) ∧
    (∀ st body u now, StateEventInvariant st →
      StateEventInvariant (create_single_action st body u now).1) ∧
    (∀ st action_id rns rnotes u now, StateEventInvariant st →
      StateEventInvariant (transition_single_action st action_id rns rnotes u now).1) ∧
    (∀ st action_id rns rnotes u now err,
      (transition_single_action st action_id rns rnotes u now).2 = Except.error err →
      (transition_single_action st action_id rns rnotes u now).1.actions = st.actions ∧
      (transition_single_action st action_id rns rnotes u now).1.events = st.events) ∧
    (∀ st action_id rns rnotes u now a,
      (transition_single_action st action_id rns rnotes u now).2 = Except.ok a →
      ∃ e, (transition_single_action st action_id rns rnotes u now).1.events =
          st.events ++ [e] ∧
        e.action_id = a.id ∧ e.new_state = a.current_state) ∧
    (∀ st action_id body now,
      (edit_action st action_id body now).1.events = st.events) ∧
    (∀ st action_id body now,
      (st.actions.map (fun a => a.id)).Nodup →
      (edit_action st action_id body now).1.actions.map (fun a => (a.id, a.current_state)) =
        st.actions.map (fun a => (a.id, a.current_state))) ∧
    (∀ st action_id body now, StateEventInvariant st →
      StateEventInvariant (edit_action st action_id body now).1) := by
  refine ⟨?_, ?_, ?_, ?_, ?_, ?_, ?_, ?_⟩
  · intro st body u now a h
    exact create_success_shape st body u now a h
  · intro st body u now hinv
    exact create_preserves_invariant st body u now hinv
  · intro st action_id rns rnotes u now hinv
    exact transition_preserves_invariant st action_id rns rnotes u now hinv
  · intro st action_id rns rnotes u now err h
    rcases transition_store_parts st action_id rns rnotes u now with hok | ⟨a, ha⟩
    · exact hok
    · rw [h] at ha
      exact absurd ha (by simp)
  · intro st action_id rns rnotes u now a h
    exact transition_ok_shape st action_id rns rnotes u now a h
  · intro st action_id body now
    rcases edit_action_shape st action_id body now with ⟨e, hs⟩ | ⟨action, a4, hfa, hi, hc, hs⟩ <;>
      rw [hs]
  · intro st action_id body now hId
    rcases edit_action_shape st action_id body now with ⟨e, hs⟩ | ⟨action, a4, hfa, hi, hc, hs⟩ <;>
      rw [hs]
    exact map_edit_pairs st action_id action a4 hId hfa hi hc
  · intro st action_id body now hinv
    rcases edit_action_shape st action_id body now with ⟨e, hs⟩ | ⟨action, a4, hfa, hi, hc, hs⟩ <;>
      rw [hs]
    · exact hinv
    · exact map_edit_invariant st action_id action a4 hfa hi hc hinv

/-! ### The SLA scanner -/

/-- A stored custom workflow whose first (non-terminal) state is named
`COMPLETED` — a name the SLA checker's fixed exclusion list contains. -/
def crossMatchType : CustomActionType :=
  { id := 1, name := "CROSS_MATCH", department := "Laboratory",
    states := ["COMPLETED", "DONE"], terminal_state := "DONE",
    sla_routine_minutes := 120, sla_urgent_minutes := 30, sla_critical_minutes := 10 }

/-- An action of that workflow sitting in the non-terminal state
`COMPLETED` with an expired deadline. -/
def overdueCustomAction : ClinicalAction :=
  { id := 1, patient_id := 1, created_by := some 1, assigned_to := none,
    action_type := none, custom_action_type_id := some 1, title := "Cross match",
    notes := "", current_state := "COMPLETED", priority := Priority.ROUTINE,
    department := "Laboratory", sla_deadline := some 0, created_at := 0, updated_at := 0 }

/-- The store holding that single overdue, non-terminal action. -/
def slaCounterexampleState : SystemState :=
  { patients := [{ id := 1, admission_status := AdmissionStatus.ADMITTED }],
    customTypes := [crossMatchType], actions := [overdueCustomAction],
    events := [], safetyEvents := [] }

/-- Claim C8, counterexample: at time 5 the action above is overdue and
non-terminal (its custom terminal state is DONE), yet one scanner
iteration broadcasts nothing — no `sla_overdue` event and no `sla_check`
summary — because the scan filters on the fixed state-name list rather
than per-kind terminality, and the state is named `COMPLETED`. -/
theorem C8_counterexample :
    is_action_overdue overdueCustomAction
        (customTerminalOf slaCounterexampleState overdueCustomAction) 5 = true ∧
    is_terminal_state overdueCustomAction.action_type overdueCustomAction.current_state
        (customTerminalOf slaCounterexampleState overdueCustomAction) = false ∧
    slaScanIteration slaCounterexampleState 5 = ([], none) := by decide

lemma slaScan_fold (st : SystemState) (now : Nat) (l : List ClinicalAction)
    (acc : List Nat × List SlaOverdueEvent) :
    l.foldl
      (fun acc action =>
        let custom_terminal := customTerminalOf st action
        if is_action_overdue action custom_terminal now then
          (acc.1 ++ [action.id],
           acc.2 ++ [{ department := primary_queue_department action custom_terminal,
                       action_id := action.id, patient_id := action.patient_id,
                       current_state := action.current_state }])
        else acc) acc =
      (acc.1 ++ (l.filter (fun a => is_action_overdue a (customTerminalOf st a) now)).map
          (fun a => a.id),
       acc.2 ++ (l.filter (fun a => is_action_overdue a (customTerminalOf st a) now)).map
          (fun a => { department := primary_queue_department a (customTerminalOf st a),
                      action_id := a.id, patient_id := a.patient_id,
                      current_state := a.current_state })) := by
  induction l generalizing acc with
  | nil => simp
  | cons a l ih =>
    simp only [List.foldl_cons, List.filter_cons]
    by_cases h : is_action_overdue a (customTerminalOf st a) now
    · simp only [h, if_true]
      rw [ih]
      simp
    · simp only [h, Bool.false_eq_true, if_false]
      rw [ih]

/-- Claim C8 (amended): one scanner iteration selects exactly the actions
whose state name is outside the fixed exclusion list {COMPLETED,
ADMINISTERED, CLOSED, RECORDED, FAILED, CANCELLED} — not "every
non-terminal action" — broadcasts one `sla_overdue` event per overdue
selected action to that action's primary queue department, and emits the
single `sla_check` summary carrying the overdue count exactly when at
least one selected action is overdue. On built-in-kind actions (whose
reachable states never collide with the extra list entries) this
coincides with scanning every non-terminal action. -/
theorem C8_sla_scan_iteration :
    ∀ st now,
      slaScanIteration st now =
        ((((st.actions.filter (fun a => !(SLA_EXCLUDED_STATES.contains a.current_state))).filter
            (fun a => is_action_overdue a (customTerminalOf st a) now)).map
            (fun a => { department := primary_queue_department a (customTerminalOf st a),
                        action_id := a.id, patient_id := a.patient_id,
                        current_state := a.current_state })),
         (if ((st.actions.filter (fun a => !(SLA_EXCLUDED_STATES.contains a.current_state))).filter
              (fun a => is_action_overdue a (customTerminalOf st a) now)).isEmpty
          then none
          else some ((st.actions.filter
              (fun a => !(SLA_EXCLUDED_STATES.contains a.current_state))).filter
              (fun a => is_action_overdue a (customTerminalOf st a) now)).length)) := by
  intro st now
  simp only [slaScanIteration]
  rw [slaScan_fold st now]
  simp only [List.nil_append]
  have h1 : ∀ (l : List ClinicalAction), (l.map (fun a => a.id)).isEmpty = l.isEmpty := by
    intro l
    cases l <;> rfl
  rw [h1, List.length_map]

/-! ### Broadcast fan-out -/

lemma sendAll_delivered (f : Nat → Bool) :
    ∀ (snap conns : List Nat), (sendAll f snap conns).1 = snap.filter f
  | [], conns => rfl
  | ws :: rest, conns => by
    simp only [sendAll, List.filter_cons]
    by_cases h : f ws
    · simp [h, sendAll_delivered f rest conns]
    · simp [h, sendAll_delivered f rest (conns.erase ws)]

lemma sendAll_final (f : Nat → Bool) :
    ∀ (snap conns : List Nat), conns.Nodup → snap.Nodup →
      (sendAll f snap conns).2 = conns.filter (fun w => !(snap.contains w) || f w)
  | [], conns => by
    intro hc hs
    simp [sendAll]
  | ws :: rest, conns => by
    intro hc hs
    have hsr := (List.nodup_cons.mp hs).2
    have hsw : ws ∉ rest := (List.nodup_cons.mp hs).1
    simp only [sendAll]
    by_cases h : f ws
    · simp only [h, if_true]
      rw [sendAll_final f rest conns hc hsr]
      apply List.filter_congr
      intro w hw
      by_cases hww : w = ws
      · subst hww
        simp [h]
      · simp [List.contains_cons, hww]
    · simp only [h, Bool.false_eq_true, if_false]
      rw [sendAll_final f rest (conns.erase ws) (hc.erase ws) hsr]
      rw [hc.erase_eq_filter ws, List.filter_filter]
      apply List.filter_congr
      intro w hw
      by_cases hww : w = ws
      · subst hww
        simp [h]
      · simp [List.contains_cons, hww]

lemma sendAll_final_self (f : Nat → Bool) (conns : List Nat) (h : conns.Nodup) :
    (sendAll f conns conns).2 = conns.filter f := by
  rw [sendAll_final f conns conns h h]
  apply List.filter_congr
  intro w hw
  simp [hw]

lemma lookup_filter_ne {κ : Type} [BEq κ] [LawfulBEq κ] (m : List (κ × List Nat)) (k : κ) :
    (m.filter (fun p => !(p.1 == k))).lookup k = none := by
  induction m with
  | nil => rfl
  | cons p t ih =>
    simp only [List.filter_cons]
    by_cases h : (p.1 == k) = true
    · simp [h, ih]
    · have h' : p.1 ≠ k := by simpa using h
      have hk : (k == p.1) = false := by
        simp only [beq_eq_false_iff_ne]
        exact fun he => h' he.symm
      simp [h, List.lookup, hk, ih]

lemma lookup_map_overwrite {κ : Type} [BEq κ] [LawfulBEq κ] (m : List (κ × List Nat))
    (k : κ) (v : List Nat) (hmem : m.any (fun p => p.1 == k) = true) :
    (m.map (fun p => if p.1 == k then (k, v) else p)).lookup k = some v := by
  induction m with
  | nil => simp at hmem
  | cons p t ih =>
    simp only [List.map_cons]
    by_cases h : (p.1 == k) = true
    · rw [if_pos h]
      simp [List.lookup]
    · have hmem' : t.any (fun p => p.1 == k) = true := by
        simpa [h] using hmem
      have h' : p.1 ≠ k := by simpa using h
      have hk : (k == p.1) = false := by
        simp only [beq_eq_false_iff_ne]
        exact fun he => h' he.symm
      rw [if_neg h]
      simp [List.lookup, hk, ih hmem']

lemma lookup_append_fresh {κ : Type} [BEq κ] [LawfulBEq κ] (m : List (κ × List Nat))
    (k : κ) (v : List Nat) (hmem : m.any (fun p => p.1 == k) = false) :
    (m ++ [(k, v)]).lookup k = some v := by
  induction m with
  | nil => simp [List.lookup]
  | cons p t ih =>
    have h : (p.1 == k) = false := by
      by_cases hc : (p.1 == k) = true
      · simp [hc] at hmem
      · simpa using hc
    have hmem' : t.any (fun p => p.1 == k) = false := by
      simpa [h] using hmem
    have h' : p.1 ≠ k := by simpa using h
    have hk : (k == p.1) = false := by
      simp only [beq_eq_false_iff_ne]
      exact fun he => h' he.symm
    simp [List.lookup, hk, ih hmem']

lemma partitionConns_setPartition {κ : Type} [BEq κ] [LawfulBEq κ]
    (m : List (κ × List Nat)) (k : κ) (v : List Nat) :
    partitionConns (setPartition m k v) k = v := by
  unfold partitionConns setPartition
  by_cases hv : v.isEmpty
  · have hv' : v = [] := List.isEmpty_iff.mp hv
    subst hv'
    rw [if_pos hv, lookup_filter_ne]
    rfl
  · rw [if_neg hv]
    cases hb : m.any (fun p => p.1 == k) with
    | true =>
      rw [if_pos rfl, lookup_map_overwrite m k v hb]
      rfl
    | false =>
      rw [if_neg (by simp), lookup_append_fresh m k v hb]
      rfl

/-- Claim C9: for every publish to a broadcast partition (per-patient,
per-department, or global status), delivery is attempted against the
snapshot of subscribers taken at the start of the publish: exactly the
subscribers whose delivery succeeds receive the event (a failure does not
abort delivery to the rest), every failing subscriber is removed from the
partition, every succeeding one stays, and the publish itself always
returns to its caller (`sendAll` is total — a delivery failure is
consumed by the per-subscriber handler, never propagated). -/
theorem C9_broadcast_best_effort :
    (∀ (m : ConnectionManager) (pid : Nat) (sendOk : Nat → Bool),
      (partitionConns m.patient_connections pid).Nodup →
      (broadcast_patient m pid sendOk).2 =
        (partitionConns m.patient_connections pid).filter sendOk ∧
      partitionConns (broadcast_patient m pid sendOk).1.patient_connections pid =
        (partitionConns m.patient_connections pid).filter sendOk) ∧
    (∀ (m : ConnectionManager) (dept : String) (sendOk : Nat → Bool),
      (partitionConns m.department_connections (pyLower (pyStrip dept))).Nodup →
      (broadcast_department m dept sendOk).2 =
        (partitionConns m.department_connections (pyLower (pyStrip dept))).filter sendOk ∧
      partitionConns (broadcast_department m dept sendOk).1.department_connections
          (pyLower (pyStrip dept)) =
        (partitionConns m.department_connections (pyLower (pyStrip dept))).filter sendOk) ∧
    (∀ (m : ConnectionManager) (sendOk : Nat → Bool),
      m.status_connections.Nodup →
      (broadcast_status m sendOk).2 = m.status_connections.filter sendOk ∧
      (broadcast_status m sendOk).1.status_connections =
        m.status_connections.filter sendOk) := by
  refine ⟨?_, ?_, ?_⟩
  · intro m pid sendOk hnd
    constructor
    · show (sendAll sendOk _ _).1 = _
      rw [sendAll_delivered]
    · show partitionConns (setPartition m.patient_connections pid _) pid = _
      rw [partitionConns_setPartition, sendAll_final_self sendOk _ hnd]
  · intro m dept sendOk hnd
    constructor
    · show (sendAll sendOk _ _).1 = _
      rw [sendAll_delivered]
    · show partitionConns (setPartition m.department_connections (pyLower (pyStrip dept)) _)
          (pyLower (pyStrip dept)) = _
      rw [partitionConns_setPartition, sendAll_final_self sendOk _ hnd]
  · intro m sendOk hnd
    constructor
    · show (sendAll sendOk _ _).1 = _
      rw [sendAll_delivered]
    · show (sendAll sendOk _ _).2 = _
      rw [sendAll_final_self sendOk _ hnd]

/-! ### Concrete sample data, used by the witness theorems -/

/-- An admitted patient. -/
def samplePatient : Patient :=
  { id := 1, admission_status := AdmissionStatus.ADMITTED }

/-- A doctor. -/
def sampleDoctor : User :=
  { id := 1, role := UserRole.DOCTOR, department := "General" }

/-- A nurse. -/
def sampleNurse : User :=
  { id := 2, role := UserRole.NURSE, department := "Nursing" }

/-- A medication action in its initial state. -/
def medPrescribed : ClinicalAction :=
  { id := 1, patient_id := 1, created_by := some 1, assigned_to := none,
    action_type := some ActionType.MEDICATION, custom_action_type_id := none,
    title := "Amoxicillin", notes := "", current_state := "PRESCRIBED",
    priority := Priority.ROUTINE, department := "Pharmacy", sla_deadline := some 120,
    created_at := 0, updated_at := 0 }

/-- The same medication action after dispensing. -/
def medDispensed : ClinicalAction :=
  { medPrescribed with current_state := "DISPENSED", updated_at := 5 }

/-- An open diagnostic action of the same patient. -/
def diagRequested : ClinicalAction :=
  { id := 2, patient_id := 1, created_by := some 1, assigned_to := none,
    action_type := some ActionType.DIAGNOSTIC, custom_action_type_id := none,
    title := "Chest x-ray", notes := "", current_state := "REQUESTED",
    priority := Priority.ROUTINE, department := "Radiology", sla_deadline := some 120,
    created_at := 0, updated_at := 0 }

/-- A store holding the prescribed medication with its creation event. -/
def stMed : SystemState :=
  { patients := [samplePatient], customTypes := [], actions := [medPrescribed],
    events := [{ action_id := 1, actor_id := some 1, actor_role := some UserRole.DOCTOR,
                 previous_state := "", new_state := "PRESCRIBED", notes := "", timestamp := 0 }],
    safetyEvents := [] }

/-- A store holding the dispensed medication and an open diagnostic. -/
def stMedDiag : SystemState :=
  { patients := [samplePatient], customTypes := [], actions := [medDispensed, diagRequested],
    events := [], safetyEvents := [] }

/-- An empty store. -/
def stEmpty : SystemState :=
  { patients := [samplePatient], customTypes := [], actions := [], events := [],
    safetyEvents := [] }

/-- A well-formed custom-type creation request with unnormalized tokens. -/
def bloodMatchRequest : CustomTypeCreate :=
  { name := "Blood Match", department := "Laboratory",
    states := ["ordered", "matched", "completed"], terminal_state := "completed",
    sla_routine_minutes := 120, sla_urgent_minutes := 30, sla_critical_minutes := 10 }

/-- The stored definition the request above produces. -/
def bloodMatchType : CustomActionType :=
  { id := 7, name := "BLOOD_MATCH", department := "Laboratory",
    states := ["ORDERED", "MATCHED", "COMPLETED"], terminal_state := "COMPLETED",
    sla_routine_minutes := 120, sla_urgent_minutes := 30, sla_critical_minutes := 10 }

/-! ### Witnesses -/

/-- Witness for C1: a nurse attempting the illegal PRESCRIBED →
ADMINISTERED skip gets exactly one blocked UNSAFE_TRANSITION warning
appended. -/
theorem C1_witness :
    ∃ ev, (transition_single_action stMed 1 "ADMINISTERED" "" sampleNurse 7).1 =
        { stMed with safetyEvents := stMed.safetyEvents ++ [ev] } ∧
      ev.event_type = "UNSAFE_TRANSITION" ∧ ev.severity = SafetySeverity.WARNING ∧
      ev.blocked = true :=
  (C1_transition_safety_accounting stMed 1 "ADMINISTERED" "" sampleNurse 7 medPrescribed
      samplePatient rfl rfl (by decide)).1
    (validationErrMsgBadTarget "MEDICATION" "PRESCRIBED" "ADMINISTERED" ["DISPENSED"])
    rfl

/-- Witness for C3: creating an action in the empty store preserves the
state/event invariant. -/
theorem C3_witness :
    StateEventInvariant (create_single_action stEmpty
      { patient_id := 1, action_type := some ActionType.MEDICATION,
        custom_action_type_id := none, priority := Priority.ROUTINE,
        title := "Amoxicillin", notes := "", department_target := none }
      sampleDoctor 3).1 :=
  C3_current_state_invariant.2.1 stEmpty _ sampleDoctor 3
    (fun a ha => absurd ha (List.not_mem_nil a))

/-- Witness for C4: the stored three-state blood-match workflow derives
exactly its two consecutive edges. -/
theorem C4_witness :
    build_custom_transitions bloodMatchType = chainGraph bloodMatchType.states ∧
    (build_custom_transitions bloodMatchType).length = bloodMatchType.states.length - 1 :=
  ⟨((C4_custom_workflow_graph.2 bloodMatchRequest [] 7 bloodMatchType rfl).2.2.2).1,
   ((C4_custom_workflow_graph.2 bloodMatchRequest [] 7 bloodMatchType rfl).2.2.2).2.1⟩

/-- Witness for C5: administering the dispensed medication while the
patient's diagnostic is still REQUESTED is rejected with the dependency
violation reporting one pending diagnostic. -/
theorem C5_witness :
    (transition_single_action stMedDiag 1 "ADMINISTERED" "" sampleNurse 9).2 =
      Except.error (TransitionError.dependencyViolation
        (depViolationMsg (pendingDiagnostics stMedDiag medDispensed.patient_id).length)) :=
  C5_medication_dependency.2.2.2 stMedDiag 1 medDispensed samplePatient sampleNurse "" 9
    rfl rfl (by decide) rfl rfl rfl rfl
    ⟨diagRequested, by decide, rfl, rfl, by decide⟩

/-- Witness for C6: advancing a Radiology diagnostic allows exactly
Radiologist and Admin. -/
theorem C6_witness :
    roles_allowed_for_transition diagRequested "SAMPLE_COLLECTED" =
      (if ("SAMPLE_COLLECTED" : String) = "CANCELLED" then {UserRole.DOCTOR, UserRole.ADMIN}
       else if pyNorm diagRequested.department = "radiology" then
         {UserRole.RADIOLOGIST, UserRole.ADMIN}
       else {UserRole.LAB_TECH, UserRole.ADMIN}) :=
  C6_role_table.1 diagRequested "SAMPLE_COLLECTED" rfl rfl

/-- Witness for C7: a create request naming both a built-in kind and a
custom type is rejected as the ambiguous-kind conflict. -/
theorem C7_witness :
    create_single_action stEmpty
        { patient_id := 1, action_type := some ActionType.MEDICATION,
          custom_action_type_id := some 7, priority := Priority.ROUTINE,
          title := "Amoxicillin", notes := "", department_target := none }
        sampleDoctor 3 =
      (stEmpty, Except.error CreateError.conflictBothKinds) :=
  C7_create_error_taxonomy.1 stEmpty _ sampleDoctor 3 (by decide) (by decide)

/-- Witness for C9: publishing to a two-subscriber patient partition
where one delivery fails removes exactly the failing subscriber and still
delivers to the other. -/
theorem C9_witness :
    (broadcast_patient
        { patient_connections := [(1, [10, 11])], department_connections := [],
          status_connections := [] } 1 (fun ws => ws == 10)).2 =
      (partitionConns ([(1, [10, 11])] : List (Nat × List Nat)) 1).filter (fun ws => ws == 10) ∧
    partitionConns (broadcast_patient
        { patient_connections := [(1, [10, 11])], department_connections := [],
          status_connections := [] } 1 (fun ws => ws == 10)).1.patient_connections 1 =
      (partitionConns ([(1, [10, 11])] : List (Nat × List Nat)) 1).filter (fun ws => ws == 10) :=
  C9_broadcast_best_effort.1
    { patient_connections := [(1, [10, 11])], department_connections := [],
      status_connections := [] } 1 (fun ws => ws == 10) (by decide)

/-- Witness for C10: creating a vitals request for an admitted patient
fails on the initial-state lookup and leaves the store untouched. -/
theorem C10_witness :
    (create_single_action stEmpty
        { patient_id := 1, action_type := some ActionType.VITALS_REQUEST,
          custom_action_type_id := none, priority := Priority.ROUTINE,
          title := "Vitals q4h", notes := "", department_target := none }
        sampleDoctor 3).2 = Except.error CreateError.missingInitialState :=
  C10_vitals_request_unconstructible.2.2.2 stEmpty _ sampleDoctor 3 samplePatient
    rfl rfl rfl (by decide) (by decide)

end Clavis
